import Mathlib

/-!
Verification development for the Tavily research-agent pipeline
(`app/workflow/research_workflow.py`, `app/agents/*.py`, `app/models/*.py`).

The Python source is shallowly embedded below.  External collaborators
(the Tavily search client, the Ollama text-generation endpoint, and the
standard-library JSON decoder) are opaque to the repository, so they are
modelled as explicit function parameters ("oracles"): a provider call is
a function returning `Except String _` (an `error` models a raised
provider exception such as a timeout or a non-2xx status), and `json.loads`
together with the dict-shape access is a function returning `Option _`
(`none` models a `JSONDecodeError`).  Prompt construction for the three
generation stages is out of the embedded core (only its inputs matter for
control flow), so a generation oracle receives the data the prompt is
built from.  Everything else - string scanning, grouping, filtering,
thresholds, the LangGraph node functions and the error-guarded stage
sequencing of `_create_workflow` / `_should_continue` - is translated
directly from the source.

Floats are modelled as rationals, Python `str` as `String`, Python lists
as `List`, Python `dict` (insertion ordered) as association lists, and
`None`-able values as `Option`.
-/

/-! ### Python-style primitives -/

/-- Python truthiness of an `Optional[str]` combined with `or`:
`x or d` returns `d` when `x` is `None` or the empty string. -/
def pyOrStr (x : Option String) (d : String) : String :=
  match x with
  | none => d
  | some s => if s = "" then d else s

/-- Python `x or d` for an `Optional[int]`: `None` and `0` are falsy. -/
def pyOrInt (x : Option Int) (d : Int) : Int :=
  match x with
  | none => d
  | some v => if v = 0 then d else v

/-- Python `x or d` for an `Optional[list]`: `None` and `[]` are falsy. -/
def pyOrList (x : Option (List String)) (d : List String) : List String :=
  match x with
  | none => d
  | some l => if l = [] then d else l

/-- Does `pat` occur as a contiguous sublist of `l`? -/
def listContains (pat : List Char) : List Char → Bool
  | [] => pat.isEmpty
  | c :: rest => pat.isPrefixOf (c :: rest) || listContains pat rest

/-- Python substring test `pat in s`, on the character lists. -/
def containsSub (s pat : String) : Bool :=
  listContains pat.toList s.toList

/-- Python `s.find(c, start)`: index of the first occurrence of `c` at or
after `start`, or `-1`. -/
def pyFindFrom (l : List Char) (c : Char) (start : Nat) : Int :=
  match (l.drop start).findIdx? (fun x => x = c) with
  | none => -1
  | some i => ((start + i : Nat) : Int)

/-- Python `s.rfind(c)`: index of the last occurrence of `c`, or `-1`. -/
def pyRfind (l : List Char) (c : Char) : Int :=
  match l.reverse.findIdx? (fun x => x = c) with
  | none => -1
  | some i => ((l.length - 1 - i : Nat) : Int)

/-- Python slice `l[a:b]` for non-negative bounds. -/
def pySlice (l : List Char) (a b : Nat) : List Char :=
  (l.drop a).take (b - a)

/-- Python slice `l[:n]` (an `int` bound; negative counts from the end). -/
def pySliceTo {α : Type} (l : List α) (n : Int) : List α :=
  if 0 ≤ n then l.take n.toNat else l.take (l.length - (-n).toNat)

/-- Python `str.strip()` on a character list. -/
def pyStripList (l : List Char) : List Char :=
  ((l.dropWhile Char.isWhitespace).reverse.dropWhile Char.isWhitespace).reverse

/-- Python `str.strip()`. -/
def pyStrip (s : String) : String :=
  (pyStripList s.toList).asString

/-- Python `len(s.strip())`. -/
def pyStripLen (s : String) : Nat :=
  (pyStripList s.toList).length

/-- Python `s.lower()` (character-wise, as in `str.lower` on ASCII). -/
def pyLower (s : String) : String :=
  (s.toList.map Char.toLower).asString

/-- Python `s.upper()` (character-wise, as in `str.upper` on ASCII). -/
def pyUpper (s : String) : String :=
  (s.toList.map Char.toUpper).asString

/-- Split a character list on a separator character (Python
`s.split(c)`: empty pieces are kept). -/
def splitOnChar (c : Char) : List Char → List (List Char)
  | [] => [[]]
  | x :: rest =>
      let r := splitOnChar c rest
      if x = c then [] :: r
      else
        match r with
        | [] => [[x]]
        | h :: t => (x :: h) :: t

/-- Python `s.split(sep)` for a one-character separator. -/
def pySplitChar (s : String) (c : Char) : List String :=
  (splitOnChar c s.toList).map List.asString

/-! ### Ordered-dict association lists

Python 3 `dict` / `defaultdict` preserve insertion order; they are
modelled as association lists with unique keys.  `upsert` is the
`d[k] = f(d.get(k, dflt))` update used by `defaultdict` access. -/

/-- Look up a key in an association list (first match). -/
def alistLookup {κ α : Type} [DecidableEq κ] (g : List (κ × α)) (k : κ) : Option α :=
  match g with
  | [] => none
  | (k', v) :: rest => if k' = k then some v else alistLookup rest k

/-- Update the entry at `k` with `f`, inserting `f dflt` at the end when
the key is absent - exactly a Python `defaultdict` mutation. -/
def upsert {κ α : Type} [DecidableEq κ] (k : κ) (f : α → α) (dflt : α) :
    List (κ × α) → List (κ × α)
  | [] => [(k, f dflt)]
  | (k', v) :: rest =>
      if k' = k then (k', f v) :: rest else (k', v) :: upsert k f dflt rest

/-- The keys of an association list. -/
def alistKeys {κ α : Type} (g : List (κ × α)) : List κ := g.map (fun e => e.1)

/-! ### Data model (`app/models/query.py`, `app/models/response.py`) -/

/-- `QueryStatus` (`app/models/query.py`). -/
inductive QueryStatus where
  | pending
  | searching
  | extracting
  | comparing
  | summarizing
  | completed
  | failed
deriving DecidableEq, Repr

/-- `ResearchQuery` (`app/models/query.py`). -/
structure ResearchQuery where
  query : String
  regions : Option (List String)
  document_types : Option (List String)
  max_documents : Option Int
deriving DecidableEq, Repr

/-- `Document` (`app/models/response.py`).  `published_date` is modelled
as absent (no claim involves it on documents). -/
structure Document where
  title : String
  url : String
  content : String
  source : String
  region : Option String
  document_type : Option String
  relevance_score : Option ℚ
deriving DecidableEq, Repr

/-- `ExtractedClause` (`app/models/response.py`). -/
structure ExtractedClause where
  clause_text : String
  clause_type : String
  topic : String
  jurisdiction : String
  document_source : String
  confidence_score : Option ℚ
  key_entities : Option (List String)
deriving DecidableEq, Repr

/-- `Comparison` (`app/models/response.py`). -/
structure Comparison where
  topic : String
  similarities : List String
  differences : List String
  gaps : List String
  jurisdictions_compared : List String
  comparison_score : Option ℚ
deriving DecidableEq, Repr

/-- `Summary` (`app/models/response.py`); `generated_at` (wall-clock
time) is outside the embedded core. -/
structure Summary where
  executive_summary : String
  key_findings : List String
  recommendations : List String
  methodology : String
  limitations : List String
deriving DecidableEq, Repr

/-- The `metadata` dict built by `_finalize_node`
(`research_workflow.py`, lines 227-232). -/
structure ResultMetadata where
  regions : List String
  document_types : List String
  max_documents : Int
  workflow_version : String
deriving DecidableEq, Repr

/-- `ResearchResult` (`app/models/response.py`) as built by
`_finalize_node`; the timestamps are outside the embedded core. -/
structure ResearchResult where
  query : String
  documents : List Document
  extracted_clauses : List ExtractedClause
  comparisons : List Comparison
  summary : Option Summary
  metadata : ResultMetadata
deriving DecidableEq, Repr

/-! ### Search agent (`app/agents/search_agent.py`) -/

/-- A raw Tavily search result: the dict fields the agent reads with
`.get`; `has_score` / `has_published_date` model `"score" in result`
and `"published_date" in result`. -/
structure RawResult where
  title : Option String
  url : Option String
  content : Option String
  source : Option String
  score : Option ℚ
  has_published_date : Bool
deriving DecidableEq, Repr

/-- `_build_search_query` (`search_agent.py`, lines 49-86). -/
def build_search_query (query : String) (regions : Option (List String))
    (document_types : Option (List String)) : String :=
  let search_terms := [query]
  let search_terms :=
    match regions with
    | none => search_terms
    | some [] => search_terms
    | some rs =>
        search_terms ++ rs.foldl (fun acc region =>
          acc ++
            (if pyUpper region = "EU" then ["European Union", "EU", "European Commission"]
             else if pyUpper region = "US" then ["United States", "US", "USA", "federal"]
             else if pyUpper region = "UK" then ["United Kingdom", "UK", "British"]
             else [region])) []
  let search_terms :=
    match document_types with
    | none => search_terms
    | some [] => search_terms
    | some ts =>
        search_terms ++ ts.foldl (fun acc doc_type =>
          acc ++
            (if doc_type = "legislation" then ["legislation", "law", "act", "regulation"]
             else if doc_type = "policy_framework" then ["policy", "framework", "guidelines", "strategy"]
             else if doc_type = "white_paper" then ["white paper", "whitepaper", "report"]
             else [doc_type])) []
  let search_terms := search_terms ++ ["artificial intelligence", "AI", "machine learning", "algorithm"]
  String.intercalate " " search_terms

/-- `_extract_region` (`search_agent.py`, lines 152-168). -/
def extract_region (result : RawResult) (regions : Option (List String)) : String :=
  match regions with
  | some [r] => r
  | _ =>
    let content := pyLower (result.content.getD "")
    let url := pyLower (result.url.getD "")
    if ["european union", "eu", "europa"].any
        (fun term => containsSub content term || containsSub url term) then "EU"
    else if ["united states", "us", "usa", "federal"].any
        (fun term => containsSub content term || containsSub url term) then "US"
    else if ["united kingdom", "uk", "british"].any
        (fun term => containsSub content term || containsSub url term) then "UK"
    else
      match regions with
      | none => "Global"
      | some [] => "Unknown"
      | some (r :: _) => r

/-- `_classify_document_type` (`search_agent.py`, lines 170-182). -/
def classify_document_type (result : RawResult) : String :=
  let content := pyLower (result.content.getD "")
  let url := pyLower (result.url.getD "")
  if ["act", "regulation", "law", "legislation"].any
      (fun term => containsSub content term || containsSub url term) then "legislation"
  else if ["policy", "framework", "guidelines"].any
      (fun term => containsSub content term || containsSub url term) then "policy_framework"
  else if ["white paper", "whitepaper", "report"].any
      (fun term => containsSub content term || containsSub url term) then "white_paper"
  else "other"

/-- `_calculate_relevance_score` (`search_agent.py`, lines 184-206). -/
def calculate_relevance_score (result : RawResult) : ℚ :=
  let score : ℚ := 0
  let score := score + (match result.score with | some s => s * 0.5 | none => 0)
  let url := pyLower (result.url.getD "")
  let score := score +
    (if ["europa.eu", "whitehouse.gov", "gov.uk"].any (fun d => containsSub url d)
     then 0.3 else 0)
  let score := score + (if result.has_published_date then 0.1 else 0)
  let score := score + (if 1000 < (result.content.getD "").length then 0.1 else 0)
  min score 1.0

/-- Stable insertion preserving discovery order among equal keys: model
of CPython's stable `list.sort(key=..., reverse=True)`
(`search_agent.py`, line 148). -/
def insertByScoreDesc (x : Document) : List Document → List Document
  | [] => [x]
  | y :: ys =>
      if (y.relevance_score.getD 0) < (x.relevance_score.getD 0) then
        x :: y :: ys
      else
        y :: insertByScoreDesc x ys

/-- Stable descending sort by `relevance_score or 0`. -/
def sortByScoreDesc : List Document → List Document
  | [] => []
  | x :: xs => insertByScoreDesc x (sortByScoreDesc xs)

/-- `_process_search_results` (`search_agent.py`, lines 120-150). -/
def process_search_results (results : List RawResult)
    (regions : Option (List String)) : List Document :=
  let documents := results.map (fun result =>
    { title := result.title.getD "Untitled"
      url := result.url.getD ""
      content := result.content.getD ""
      source := result.source.getD "Unknown"
      region := some (extract_region result regions)
      document_type := some (classify_document_type result)
      relevance_score := some (calculate_relevance_score result) })
  sortByScoreDesc documents

/-- `search_documents` (`search_agent.py`, lines 17-47): builds the
query, performs the Tavily call (the oracle; a raised provider error is
`Except.error` and propagates), and processes the results. -/
def search_documents (tavily : String → Except String (List RawResult))
    (query : String) (regions : Option (List String))
    (document_types : Option (List String)) : Except String (List Document) :=
  match tavily (build_search_query query regions document_types) with
  | Except.error e => Except.error e
  | Except.ok search_results =>
      Except.ok (process_search_results search_results regions)

/-! ### Extract agent (`app/agents/extract_agent.py`) -/

/-- One decoded item of the JSON array returned by the extraction
collaborator: the keys read with `item.get` (`extract_agent.py`,
lines 153-160); a missing key is `none`. -/
structure ExtractItem where
  clause_text : Option String
  clause_type : Option String
  topic : Option String
  key_entities : Option (List String)
  confidence : Option ℚ
deriving DecidableEq, Repr

/-- The `response.find('[')` / `response.rfind(']')` bracket scan of
`_parse_extraction_response` (lines 141-148): the candidate JSON
substring, or `none` when no array delimiters are found. -/
def findJsonArray (response : String) : Option String :=
  let l := response.toList
  let json_start := pyFindFrom l '[' 0
  let json_end := pyRfind l ']' + 1
  if json_start = -1 ∨ json_end = 0 then none
  else some (pySlice l json_start.toNat json_end.toNat).asString

/-- The `ExtractedClause` built from one decoded item
(`extract_agent.py`, lines 153-161). -/
def clauseOfItem (item : ExtractItem) (document : Document) : ExtractedClause :=
  { clause_text := item.clause_text.getD ""
    clause_type := item.clause_type.getD "other"
    topic := item.topic.getD "other"
    jurisdiction := pyOrStr document.region "Unknown"
    document_source := document.title
    confidence_score := some (item.confidence.getD 0.8)
    key_entities := some (item.key_entities.getD []) }

/-- `_fallback_extraction` (`extract_agent.py`, lines 178-207): the
lenient line scan used when JSON decoding fails.  Each line is
stripped; a line starting with `"clause_text"` or `clause_text` has the
text between its second and last double quote extracted, and yields a
clause with default type/topic and the lower fallback confidence 0.6
when that text is longer than 10 characters. -/
def fallback_extraction (response : String) (document : Document) : List ExtractedClause :=
  let lines := pySplitChar response '\n'
  lines.foldl (fun clauses rawLine =>
    let line := pyStrip rawLine
    if decide (("\"clause_text\"").toList.isPrefixOf line.toList) ||
       decide (("clause_text").toList.isPrefixOf line.toList) then
      let l := line.toList
      let text_start := pyFindFrom l '"' ((pyFindFrom l '"' 0) + 1).toNat + 1
      let text_end := pyRfind l '"'
      if 0 < text_start ∧ text_start < text_end then
        let current_clause := (pySlice l text_start.toNat text_end.toNat).asString
        if 10 < current_clause.length then
          clauses ++ [{ clause_text := current_clause
                        clause_type := "requirement"
                        topic := "general"
                        jurisdiction := pyOrStr document.region "Unknown"
                        document_source := document.title
                        confidence_score := some 0.6
                        key_entities := none }]
        else clauses
      else clauses
    else clauses) []

/-- `_parse_extraction_response` (`extract_agent.py`, lines 135-176).
`decode` is the opaque `json.loads`-and-shape step: `none` is a
`JSONDecodeError`, which triggers the fallback scan; when no JSON array
delimiters are found at all the method returns the (empty) `clauses`
accumulator without consulting the decoder. -/
def parse_extraction_response (decode : String → Option (List ExtractItem))
    (response : String) (document : Document) : List ExtractedClause :=
  match findJsonArray response with
  | none => []
  | some json_str =>
      match decode json_str with
      | none => fallback_extraction response document
      | some extracted_data =>
          extracted_data.foldl (fun clauses item =>
            let clause := clauseOfItem item document
            if 10 < pyStripLen clause.clause_text then clauses ++ [clause]
            else clauses) []

/-- `_extract_from_document` (`extract_agent.py`, lines 52-68): the
Ollama call for one document (prompt construction plus `_call_ollama`,
whose provider failures `raise`) is the oracle; the surrounding
`try/except` turns any raised error into an empty clause list. -/
def extract_from_document (ollama : Document → Except String String)
    (decode : String → Option (List ExtractItem)) (document : Document) :
    List ExtractedClause :=
  match ollama document with
  | Except.error _ => []
  | Except.ok response => parse_extraction_response decode response document

/-- `extract_clauses` (`extract_agent.py`, lines 19-50): sequential
per-document extraction, concatenating the per-document results. -/
def extract_clauses (ollama : Document → Except String String)
    (decode : String → Option (List ExtractItem)) (documents : List Document) :
    List ExtractedClause :=
  documents.foldl (fun all_clauses document =>
    all_clauses ++ extract_from_document ollama decode document) []

/-- `validate_clauses` (`extract_agent.py`, lines 209-220): keep a
clause when `len(clause.clause_text.strip()) > 20` and
`clause.confidence_score` is truthy and `> 0.5`. -/
def validate_clauses (clauses : List ExtractedClause) : List ExtractedClause :=
  clauses.foldl (fun validated_clauses clause =>
    if decide (20 < pyStripLen clause.clause_text) &&
        (match clause.confidence_score with
         | none => false
         | some s => (!(s == 0)) && decide ((0.5 : ℚ) < s)) then
      validated_clauses ++ [clause]
    else validated_clauses) []

/-! ### Compare agent (`app/agents/compare_agent.py`) -/

/-- The grouping produced by `_group_clauses`: an insertion-ordered map
from lower-cased topic to an insertion-ordered map from jurisdiction to
the clauses in discovery order. -/
abbrev Grouped : Type := List (String × List (String × List ExtractedClause))

/-- One `grouped[topic][jurisdiction].append(clause)` step
(`compare_agent.py`, lines 55-58). -/
def insertClause (grouped : Grouped) (clause : ExtractedClause) : Grouped :=
  upsert (pyLower clause.topic)
    (fun inner => upsert clause.jurisdiction (fun cs => cs ++ [clause]) [] inner)
    [] grouped

/-- `_group_clauses` (`compare_agent.py`, lines 51-60). -/
def group_clauses (clauses : List ExtractedClause) : Grouped :=
  clauses.foldl insertClause []

/-- The decoded JSON object of a comparison response: the keys read
with `comparison_data.get` (`compare_agent.py`, lines 171-177). -/
structure CompData where
  similarities : Option (List String)
  differences : Option (List String)
  gaps : Option (List String)
  comparison_score : Option ℚ
deriving DecidableEq, Repr

/-- The `response.find('{')` / `response.rfind('}')` brace scan of
`_parse_comparison_response` (lines 161-168). -/
def findJsonObject (response : String) : Option String :=
  let l := response.toList
  let json_start := pyFindFrom l '{' 0
  let json_end := pyRfind l '}' + 1
  if json_start = -1 ∨ json_end = 0 then none
  else some (pySlice l json_start.toNat json_end.toNat).asString

/-- `_create_fallback_comparison` (`compare_agent.py`, lines 186-203). -/
def create_fallback_comparison (topic : String)
    (jurisdiction_clauses : List (String × List ExtractedClause)) : Comparison :=
  { topic := topic
    similarities := ["All jurisdictions have some form of " ++ topic ++ " regulation"]
    differences := ["Different jurisdictions approach " ++ topic ++ " with varying levels of detail"]
    gaps := ["Some jurisdictions may lack comprehensive " ++ topic ++ " frameworks"]
    jurisdictions_compared := alistKeys jurisdiction_clauses
    comparison_score := some 0.5 }

/-- `_parse_comparison_response` (`compare_agent.py`, lines 156-184):
no JSON object found, or a `JSONDecodeError` from the decoder, falls
back to the template comparison. -/
def parse_comparison_response (decode : String → Option CompData) (response : String)
    (topic : String) (jurisdiction_clauses : List (String × List ExtractedClause)) :
    Comparison :=
  match findJsonObject response with
  | none => create_fallback_comparison topic jurisdiction_clauses
  | some json_str =>
      match decode json_str with
      | none => create_fallback_comparison topic jurisdiction_clauses
      | some comparison_data =>
          { topic := topic
            similarities := comparison_data.similarities.getD []
            differences := comparison_data.differences.getD []
            gaps := comparison_data.gaps.getD []
            jurisdictions_compared := alistKeys jurisdiction_clauses
            comparison_score := some (comparison_data.comparison_score.getD 0.5) }

/-- `_compare_topic` (`compare_agent.py`, lines 62-78): the Ollama call
for one topic (prompt construction plus `_call_ollama`) is the oracle;
the surrounding `try/except` turns any raised error into `None`. -/
def compare_topic
    (ollama : String → List (String × List ExtractedClause) → Except String String)
    (decode : String → Option CompData) (topic : String)
    (jurisdiction_clauses : List (String × List ExtractedClause)) : Option Comparison :=
  match ollama topic jurisdiction_clauses with
  | Except.error _ => none
  | Except.ok response =>
      some (parse_comparison_response decode response topic jurisdiction_clauses)

/-- `compare_clauses` (`compare_agent.py`, lines 20-49): group, then for
each topic with more than one jurisdiction produce a comparison,
skipping topics whose `_compare_topic` returned `None`. -/
def compare_clauses
    (ollama : String → List (String × List ExtractedClause) → Except String String)
    (decode : String → Option CompData) (clauses : List ExtractedClause) :
    List Comparison :=
  let grouped_clauses := group_clauses clauses
  grouped_clauses.foldl (fun comparisons entry =>
    if 1 < entry.2.length then
      match compare_topic ollama decode entry.1 entry.2 with
      | some comparison => comparisons ++ [comparison]
      | none => comparisons
    else comparisons) []

/-- `identify_regulatory_gaps` (`compare_agent.py`, lines 247-276).
`jurisdiction_topics` is a `defaultdict(set)`; a Python `set` is
modelled as a deduplicated list in first-insertion order (the claims
settled below are insensitive to the iteration order of
`all_topics`). -/
def jurisdiction_topics (clauses : List ExtractedClause) :
    List (String × List String) :=
  clauses.foldl (fun acc clause =>
    upsert clause.jurisdiction
      (fun topics =>
        if pyLower clause.topic ∈ topics then topics
        else topics ++ [pyLower clause.topic])
      [] acc) []

/-- The union `all_topics` of the per-jurisdiction topic sets. -/
def allTopics (jt : List (String × List String)) : List String :=
  jt.foldl (fun acc entry =>
    acc ++ entry.2.filter (fun t => ¬ t ∈ acc)) []

/-- `identify_regulatory_gaps` (`compare_agent.py`, lines 247-276). -/
def identify_regulatory_gaps (clauses : List ExtractedClause) : List String :=
  let jt := jurisdiction_topics clauses
  let all_topics := allTopics jt
  let jurisdictions := alistKeys jt
  all_topics.foldl (fun gaps topic =>
    let jurisdictions_with_topic := jurisdictions.filter
      (fun j => topic ∈ (alistLookup jt j).getD [])
    if jurisdictions_with_topic.length < jurisdictions.length then
      let missing_jurisdictions := jurisdictions.filter
        (fun j => ¬ j ∈ jurisdictions_with_topic)
      gaps ++ ["Topic " ++ (Char.ofNat 39).toString ++ topic ++ (Char.ofNat 39).toString ++
        " is missing in jurisdictions: " ++ String.intercalate ", " missing_jurisdictions]
    else gaps) []

/-- The `jurisdictions_with_topic` list of `identify_regulatory_gaps`
(`compare_agent.py`, lines 264-267). -/
def jurisdictionsWithTopic (clauses : List ExtractedClause) (topic : String) :
    List String :=
  (alistKeys (jurisdiction_topics clauses)).filter
    (fun j => topic ∈ (alistLookup (jurisdiction_topics clauses) j).getD [])

/-- The `missing_jurisdictions` list of `identify_regulatory_gaps`
(`compare_agent.py`, lines 270-273). -/
def missingJurisdictions (clauses : List ExtractedClause) (topic : String) :
    List String :=
  (alistKeys (jurisdiction_topics clauses)).filter
    (fun j => ¬ j ∈ jurisdictionsWithTopic clauses topic)

/-- The gap sentence of `identify_regulatory_gaps`
(`compare_agent.py`, line 274). -/
def gapMessage (clauses : List ExtractedClause) (topic : String) : String :=
  "Topic " ++ (Char.ofNat 39).toString ++ topic ++ (Char.ofNat 39).toString ++
    " is missing in jurisdictions: " ++
    String.intercalate ", " (missingJurisdictions clauses topic)

/-! ### Summarize agent (`app/agents/summarize_agent.py`) -/

/-- The decoded JSON object of a summary response: the keys read with
`summary_data.get` (`summarize_agent.py`, lines 224-228). -/
structure SummaryData where
  executive_summary : Option String
  key_findings : Option (List String)
  recommendations : Option (List String)
  methodology : Option String
  limitations : Option (List String)
deriving DecidableEq, Repr

/-- `_create_fallback_summary` (`summarize_agent.py`, lines 237-286):
the deterministic fallback built from the literal counts of documents,
clauses and comparisons. -/
def create_fallback_summary (query : String) (documents : List Document)
    (clauses : List ExtractedClause) (comparisons : List Comparison) : Summary :=
  let executive_summary :=
    "\nThis research analyzed AI policy documents in response to the query: \"" ++
    query ++ "\". \nThe analysis covered " ++ toString documents.length ++
    " documents and extracted " ++ toString clauses.length ++
    " legal clauses \nacross " ++ toString comparisons.length ++
    " comparative topics. The research provides insights into \nregulatory approaches across different jurisdictions and identifies key policy differences.\n"
  let key_findings :=
    ["Analyzed " ++ toString documents.length ++ " policy documents from multiple jurisdictions",
     "Extracted " ++ toString clauses.length ++ " legal clauses covering various regulatory topics",
     "Identified " ++ toString comparisons.length ++ " key areas of regulatory comparison"]
  let recommendations :=
    ["Consider harmonizing regulatory approaches across jurisdictions",
     "Address identified regulatory gaps in policy frameworks",
     "Monitor emerging AI policy developments in key jurisdictions"]
  let methodology :=
    "\nThis research used a multi-agent AI system to:\n1. Search for relevant AI policy documents using the Tavily API\n2. Extract key legal clauses using local LLM analysis\n3. Compare regulatory approaches across jurisdictions\n4. Generate policy recommendations based on the analysis\n"
  let limitations :=
    ["Analysis limited to publicly available documents",
     "Language barriers may affect document coverage",
     "Rapidly evolving nature of AI policy may affect currency of findings"]
  { executive_summary := pyStrip executive_summary
    key_findings := key_findings
    recommendations := recommendations
    methodology := pyStrip methodology
    limitations := limitations }

/-- `_parse_summary_response` (`summarize_agent.py`, lines 207-235):
no JSON object found, or a `JSONDecodeError` from the decoder, falls
back to the count-based summary. -/
def parse_summary_response (decode : String → Option SummaryData) (response : String)
    (query : String) (documents : List Document) (clauses : List ExtractedClause)
    (comparisons : List Comparison) : Summary :=
  match findJsonObject response with
  | none => create_fallback_summary query documents clauses comparisons
  | some json_str =>
      match decode json_str with
      | none => create_fallback_summary query documents clauses comparisons
      | some summary_data =>
          { executive_summary := summary_data.executive_summary.getD ""
            key_findings := summary_data.key_findings.getD []
            recommendations := summary_data.recommendations.getD []
            methodology := summary_data.methodology.getD ""
            limitations := summary_data.limitations.getD [] }

/-- `generate_summary` (`summarize_agent.py`, lines 18-50): the Ollama
call (prompt construction plus `_call_ollama`, whose provider failures
`raise`) is the oracle over the digest inputs; a raised error
propagates out of the agent. -/
def generate_summary
    (ollama : String → List Document → List ExtractedClause → List Comparison →
      Except String String)
    (decode : String → Option SummaryData) (query : String)
    (documents : List Document) (clauses : List ExtractedClause)
    (comparisons : List Comparison) : Except String Summary :=
  match ollama query documents clauses comparisons with
  | Except.error e => Except.error e
  | Except.ok response =>
      Except.ok (parse_summary_response decode response query documents clauses comparisons)

/-! ### Workflow engine (`app/workflow/research_workflow.py`) -/

/-- The `progress` dict: one completion fraction per stage, keyed by the
four fixed stage names (`research_workflow.py`, lines 277-282). -/
structure Progress where
  search_agent : ℚ
  extract_agent : ℚ
  compare_agent : ℚ
  summarize_agent : ℚ
deriving DecidableEq, Repr

/-- The LangGraph state dict of `_create_workflow`
(`research_workflow.py`, lines 29-42). -/
structure WorkflowState where
  query : String
  regions : List String
  document_types : List String
  max_documents : Int
  status : QueryStatus
  progress : Progress
  documents : List Document
  clauses : List ExtractedClause
  comparisons : List Comparison
  summary : Option Summary
  result : Option ResearchResult
  error : Option String
deriving DecidableEq, Repr

/-- The bundle of opaque collaborator calls consumed by one run: the
Tavily search, the three Ollama generations, and the three JSON
decoding steps. -/
structure Providers where
  tavily : String → Except String (List RawResult)
  extractOllama : Document → Except String String
  compareOllama : String → List (String × List ExtractedClause) → Except String String
  summarizeOllama : String → List Document → List ExtractedClause → List Comparison →
    Except String String
  extractDecode : String → Option (List ExtractItem)
  compareDecode : String → Option CompData
  summaryDecode : String → Option SummaryData

/-- `_search_node` (`research_workflow.py`, lines 99-130). -/
def search_node (P : Providers) (state : WorkflowState) : WorkflowState :=
  let state := { state with
    status := QueryStatus.searching
    progress := { state.progress with search_agent := 0.0 } }
  match search_documents P.tavily state.query (some state.regions)
      (some state.document_types) with
  | Except.error e =>
      { state with
        error := some ("Search failed: " ++ e)
        status := QueryStatus.failed }
  | Except.ok documents =>
      let documents :=
        if ¬ state.max_documents = (0 : Int) then
          pySliceTo documents state.max_documents
        else documents
      { state with
        documents := documents
        progress := { state.progress with search_agent := 1.0 } }

/-- `_extract_node` (`research_workflow.py`, lines 132-158); nothing in
the extract agent raises (per-document provider errors are absorbed by
`_extract_from_document`), so the node's `except` branch is dead. -/
def extract_node (P : Providers) (state : WorkflowState) : WorkflowState :=
  let state := { state with
    status := QueryStatus.extracting
    progress := { state.progress with extract_agent := 0.0 } }
  let clauses := extract_clauses P.extractOllama P.extractDecode state.documents
  let validated_clauses := validate_clauses clauses
  { state with
    clauses := validated_clauses
    progress := { state.progress with extract_agent := 1.0 } }

/-- `_compare_node` (`research_workflow.py`, lines 160-183); nothing in
the compare agent raises (per-topic provider errors are absorbed by
`_compare_topic`), so the node's `except` branch is dead. -/
def compare_node (P : Providers) (state : WorkflowState) : WorkflowState :=
  let state := { state with
    status := QueryStatus.comparing
    progress := { state.progress with compare_agent := 0.0 } }
  let comparisons := compare_clauses P.compareOllama P.compareDecode state.clauses
  { state with
    comparisons := comparisons
    progress := { state.progress with compare_agent := 1.0 } }

/-- `_summarize_node` (`research_workflow.py`, lines 185-213). -/
def summarize_node (P : Providers) (state : WorkflowState) : WorkflowState :=
  let state := { state with
    status := QueryStatus.summarizing
    progress := { state.progress with summarize_agent := 0.0 } }
  match generate_summary P.summarizeOllama P.summaryDecode state.query
      state.documents state.clauses state.comparisons with
  | Except.error e =>
      { state with
        error := some ("Summarization failed: " ++ e)
        status := QueryStatus.failed }
  | Except.ok summary =>
      { state with
        summary := some summary
        progress := { state.progress with summarize_agent := 1.0 } }

/-- `_finalize_node` (`research_workflow.py`, lines 215-247); the
record construction cannot raise, so the `except` branch is dead. -/
def finalize_node (state : WorkflowState) : WorkflowState :=
  let result : ResearchResult :=
    { query := state.query
      documents := state.documents
      extracted_clauses := state.clauses
      comparisons := state.comparisons
      summary := state.summary
      metadata :=
        { regions := state.regions
          document_types := state.document_types
          max_documents := state.max_documents
          workflow_version := "1.0" } }
  { state with
    result := some result
    status := QueryStatus.completed }

/-- `_should_continue` (`research_workflow.py`, lines 249-253): the
workflow continues only when `state.get("error")` is falsy (`None` or
the empty string). -/
def should_continue (state : WorkflowState) : Bool :=
  match state.error with
  | none => true
  | some e => e = ""

/-- The stage sequencing compiled by `_create_workflow`
(`research_workflow.py`, lines 51-97): entry point `search`, then after
each of `search`, `extract`, `compare` and `summarize` the conditional
edge `_should_continue` either proceeds to the next node (ending with
`finalize`) or ends the run. -/
def runWorkflow (P : Providers) (s0 : WorkflowState) : WorkflowState :=
  let s1 := search_node P s0
  if ¬ should_continue s1 then s1 else
  let s2 := extract_node P s1
  if ¬ should_continue s2 then s2 else
  let s3 := compare_node P s2
  if ¬ should_continue s3 then s3 else
  let s4 := summarize_node P s3
  if ¬ should_continue s4 then s4 else
  finalize_node s4

/-- The `initial_state` dict of `run_research`
(`research_workflow.py`, lines 270-289), without config overrides. -/
def initial_state (research_query : ResearchQuery) : WorkflowState :=
  { query := research_query.query
    regions := pyOrList research_query.regions []
    document_types := pyOrList research_query.document_types []
    max_documents := pyOrInt research_query.max_documents 10
    status := QueryStatus.pending
    progress :=
      { search_agent := 0.0
        extract_agent := 0.0
        compare_agent := 0.0
        summarize_agent := 0.0 }
    documents := []
    clauses := []
    comparisons := []
    summary := none
    result := none
    error := none }

/-- `run_research` (`research_workflow.py`, lines 255-307): runs the
workflow on the initial state and returns the result record, or raises
(`Except.error`) when the final state carries an error. -/
def run_research (P : Providers) (research_query : ResearchQuery) :
    Except String (Option ResearchResult) :=
  let final_state := runWorkflow P (initial_state research_query)
  match final_state.error with
  | some e => if e = "" then Except.ok final_state.result
              else Except.error ("Workflow failed: " ++ e)
  | none => Except.ok final_state.result

/-- The per-result keyword test of `_extract_region`: does any of the
terms occur in the lower-cased content or URL? -/
def regionTermMatch (result : RawResult) (terms : List String) : Bool :=
  terms.any (fun term =>
    containsSub (pyLower (result.content.getD "")) term ||
    containsSub (pyLower (result.url.getD "")) term)

/-- Modelled from the spec: region inference "by keyword match against a
small fixed jurisdiction vocabulary - EU/US/UK", with the fallback
region made explicit (the spec says the fallback is "Global"). -/
def specRegionInference (result : RawResult) (fallback : String) : String :=
  if regionTermMatch result ["european union", "eu", "europa"] then "EU"
  else if regionTermMatch result ["united states", "us", "usa", "federal"] then "US"
  else if regionTermMatch result ["united kingdom", "uk", "british"] then "UK"
  else fallback

/-! ### Concrete fixtures used by witnesses and counterexamples -/

/-- A raw search result whose content and URL contain none of the
region keywords. -/
def fixtureRawResult : RawResult :=
  { title := some "Doc"
    url := some "http://zzz"
    content := some "zzz"
    source := some "src"
    score := some 0.9
    has_published_date := false }

/-- A collaborator response that contains a clause-text line but no
JSON array delimiters. -/
def badExtractResponse : String :=
  "\"clause_text\": \"This clause text is long enough\""

/-- A collaborator response with JSON array delimiters whose contents
fail to decode, and a clause-text line the lenient scan can use. -/
def badJsonExtractResponse : String :=
  "[ bad json\n\"clause_text\": \"This clause text is long enough\"\n]"

/-- A plain document fixture. -/
def fixtureDoc : Document :=
  { title := "Doc"
    url := "http://zzz"
    content := "zzz"
    source := "src"
    region := some "EU"
    document_type := none
    relevance_score := some 0.9 }

/-- A quality clause over a given topic and jurisdiction. -/
def fixtureClause (t j : String) : ExtractedClause :=
  { clause_text := "This clause text is long enough to pass."
    clause_type := "requirement"
    topic := t
    jurisdiction := j
    document_source := "d"
    confidence_score := some 0.9
    key_entities := none }

/-- Providers whose calls all succeed but return unparseable text. -/
def okProviders : Providers :=
  { tavily := fun _ => Except.ok [fixtureRawResult]
    extractOllama := fun _ => Except.ok "no json here"
    compareOllama := fun _ _ => Except.ok "no json here"
    summarizeOllama := fun _ _ _ _ => Except.ok "garbage"
    extractDecode := fun _ => none
    compareDecode := fun _ => none
    summaryDecode := fun _ => none }

/-- Providers whose Tavily search raises. -/
def failSearchProviders : Providers :=
  { okProviders with tavily := fun _ => Except.error "timeout" }

/-- Providers whose per-document extraction call raises. -/
def failExtractProviders : Providers :=
  { okProviders with extractOllama := fun _ => Except.error "timeout" }

/-- Providers whose per-topic comparison call raises. -/
def failCompareProviders : Providers :=
  { okProviders with compareOllama := fun _ _ => Except.error "timeout" }

/-- Providers whose summary generation call raises. -/
def failSummarizeProviders : Providers :=
  { okProviders with summarizeOllama := fun _ _ _ _ => Except.error "timeout" }

/-- A query with no regions, document types or document budget. -/
def fixtureQuery : ResearchQuery :=
  { query := "Compare AI safety rules"
    regions := none
    document_types := none
    max_documents := none }

/-- The same query with an explicitly empty region list. -/
def fixtureQueryEmptyRegions : ResearchQuery :=
  { fixtureQuery with regions := some [] }

/-- The same query with an explicit document budget of zero. -/
def fixtureQueryZeroMax : ResearchQuery :=
  { fixtureQuery with max_documents := some 0 }

/-! ### Generic lemmas about the embedding combinators -/

theorem foldl_guard_append {α : Type} (p : α → Bool) (l : List α) (acc : List α) :
    l.foldl (fun a x => if p x then a ++ [x] else a) acc = acc ++ l.filter p := by
  induction l generalizing acc with
  | nil => simp
  | cons x xs ih =>
      by_cases h : p x <;> simp [List.filter_cons, h, ih]

theorem foldl_ite_append {α β : Type} (c : α → Prop) [DecidablePred c] (m : α → β)
    (l : List α) (acc : List β) :
    l.foldl (fun a x => if c x then a ++ [m x] else a) acc
      = acc ++ l.filterMap (fun x => if c x then some (m x) else none) := by
  induction l generalizing acc with
  | nil => simp
  | cons x xs ih =>
      by_cases h : c x <;> simp [List.filterMap_cons, h, ih]

theorem foldl_append_singleton {α : Type} (l acc : List α) :
    l.foldl (fun a x => a ++ [x]) acc = acc ++ l := by
  induction l generalizing acc with
  | nil => simp
  | cons x xs ih => simp [ih]

theorem listContains_iff_infix (pat l : List Char) :
    listContains pat l = true ↔ pat <:+: l := by
  induction l with
  | nil =>
      simp only [listContains, List.isEmpty_iff, List.infix_nil]
  | cons c rest ih =>
      simp only [listContains, Bool.or_eq_true, List.isPrefixOf_iff_prefix, ih,
        List.infix_cons_iff]

theorem containsSub_iff (s pat : String) :
    containsSub s pat = true ↔ pat.toList <:+: s.toList :=
  listContains_iff_infix pat.toList s.toList

section Alist

variable {κ α : Type} [DecidableEq κ]

theorem alistLookup_upsert_self (g : List (κ × α)) (k : κ) (f : α → α) (d : α) :
    alistLookup (upsert k f d g) k = some (f ((alistLookup g k).getD d)) := by
  induction g with
  | nil => simp [upsert, alistLookup]
  | cons e rest ih =>
      obtain ⟨k', v⟩ := e
      by_cases h : k' = k <;> simp [upsert, alistLookup, h, ih]

theorem alistLookup_upsert_other (g : List (κ × α)) (k k' : κ) (f : α → α) (d : α)
    (h : ¬ k = k') : alistLookup (upsert k f d g) k' = alistLookup g k' := by
  induction g with
  | nil => simp [upsert, alistLookup, h]
  | cons e rest ih =>
      obtain ⟨k'', v⟩ := e
      by_cases h2 : k'' = k <;> by_cases h3 : k'' = k' <;>
        simp_all [upsert, alistLookup]

theorem alistKeys_upsert (g : List (κ × α)) (k : κ) (f : α → α) (d : α) :
    alistKeys (upsert k f d g)
      = if k ∈ alistKeys g then alistKeys g else alistKeys g ++ [k] := by
  induction g with
  | nil => simp [upsert, alistKeys]
  | cons e rest ih =>
      obtain ⟨k', v⟩ := e
      by_cases h : k' = k
      · simp [upsert, alistKeys, h]
      · have hne : ¬ k = k' := fun hh => h hh.symm
        by_cases hmem : k ∈ alistKeys rest <;>
          simp_all [upsert, alistKeys]

theorem nodup_alistKeys_upsert (g : List (κ × α)) (k : κ) (f : α → α) (d : α)
    (h : (alistKeys g).Nodup) : (alistKeys (upsert k f d g)).Nodup := by
  rw [alistKeys_upsert]
  by_cases hmem : k ∈ alistKeys g
  · simpa [hmem] using h
  · simp only [hmem, if_false]
    exact List.Nodup.append h (List.nodup_singleton k)
      (by simpa using fun hk => hmem hk)

theorem mem_of_alistLookup_eq_some (g : List (κ × α)) (k : κ) (v : α)
    (h : alistLookup g k = some v) : (k, v) ∈ g := by
  induction g with
  | nil => simp [alistLookup] at h
  | cons e rest ih =>
      obtain ⟨k', v'⟩ := e
      by_cases hk : k' = k
      · subst hk
        simp [alistLookup] at h
        simp [h]
      · simp [alistLookup, hk] at h
        exact List.mem_cons_of_mem _ (ih h)

omit [DecidableEq κ] in
theorem mem_alistKeys_of_mem {g : List (κ × α)} {k : κ} {v : α}
    (h : (k, v) ∈ g) : k ∈ alistKeys g := by
  simpa [alistKeys] using List.mem_map_of_mem (fun e => e.1) h

theorem alistLookup_eq_some_of_mem (g : List (κ × α)) (k : κ) (v : α)
    (hnd : (alistKeys g).Nodup) (h : (k, v) ∈ g) : alistLookup g k = some v := by
  induction g with
  | nil => simp at h
  | cons e rest ih =>
      obtain ⟨k', v'⟩ := e
      have hcons : alistKeys ((k', v') :: rest) = k' :: alistKeys rest := rfl
      rw [hcons, List.nodup_cons] at hnd
      have hnd1 : ¬ k' ∈ alistKeys rest := hnd.1
      have hnd2 : (alistKeys rest).Nodup := hnd.2
      rcases List.mem_cons.mp h with h1 | h1
      · obtain ⟨hk, hv⟩ := Prod.mk.injEq k' v' k v ▸ congrArg id h1.symm
        simp [alistLookup, hk, hv]
      · have hk : ¬ k' = k := by
          intro hkk
          exact hnd1 (hkk ▸ mem_alistKeys_of_mem h1)
        simp only [alistLookup, hk, if_false]
        exact ih hnd2 h1
end Alist

section KeyFold

variable {α κ β : Type} [DecidableEq κ]

theorem mem_alistKeys_upsert (g : List (κ × β)) (k0 : κ) (f : β → β) (d : β) (k : κ) :
    k ∈ alistKeys (upsert k0 f d g) ↔ k ∈ alistKeys g ∨ k = k0 := by
  rw [alistKeys_upsert]
  by_cases h : k0 ∈ alistKeys g
  · simp only [h, if_true]
    constructor
    · exact Or.inl
    · rintro (hk | rfl)
      · exact hk
      · exact h
  · simp [h]

theorem alistLookup_keyFold (key : α → κ) (step : β → α → β) (dflt : β)
    (l : List α) (m : List (κ × β)) (k : κ) :
    alistLookup (l.foldl (fun m x => upsert (key x) (fun v => step v x) dflt m) m) k
      = if (alistLookup m k).isSome ∨ ∃ x ∈ l, key x = k
        then some ((l.filter (fun x => key x = k)).foldl step
            ((alistLookup m k).getD dflt))
        else none := by
  induction l generalizing m with
  | nil =>
      cases h : alistLookup m k <;> simp [h]
  | cons x xs ih =>
      rw [List.foldl_cons, ih]
      by_cases hk : key x = k
      · rw [hk, alistLookup_upsert_self]
        have hcond : (alistLookup m k).isSome = true ∨ ∃ y ∈ x :: xs, key y = k :=
          Or.inr ⟨x, List.mem_cons_self x xs, hk⟩
        rw [if_pos hcond, List.filter_cons_of_pos (by simp [hk]), List.foldl_cons]
        simp only [Option.isSome_some, Option.getD_some, true_or, if_true]
      · rw [alistLookup_upsert_other _ _ _ _ _ hk,
          List.filter_cons_of_neg (by simp [hk])]
        have hiff : ((alistLookup m k).isSome = true ∨ ∃ y ∈ xs, key y = k)
            ↔ ((alistLookup m k).isSome = true ∨ ∃ y ∈ x :: xs, key y = k) := by
          constructor
          · rintro (h | ⟨y, hy, hyk⟩)
            · exact Or.inl h
            · exact Or.inr ⟨y, List.mem_cons_of_mem _ hy, hyk⟩
          · rintro (h | ⟨y, hy, hyk⟩)
            · exact Or.inl h
            · rcases List.mem_cons.mp hy with rfl | hy'
              · exact absurd hyk hk
              · exact Or.inr ⟨y, hy', hyk⟩
        by_cases hc : (alistLookup m k).isSome = true ∨ ∃ y ∈ xs, key y = k
        · rw [if_pos hc, if_pos (hiff.mp hc)]
        · rw [if_neg hc, if_neg (fun hcc => hc (hiff.mpr hcc))]

theorem mem_alistKeys_keyFold (key : α → κ) (step : β → α → β) (dflt : β)
    (l : List α) (m : List (κ × β)) (k : κ) :
    k ∈ alistKeys (l.foldl (fun m x => upsert (key x) (fun v => step v x) dflt m) m)
      ↔ k ∈ alistKeys m ∨ ∃ x ∈ l, key x = k := by
  induction l generalizing m with
  | nil => simp
  | cons x xs ih =>
      rw [List.foldl_cons, ih, mem_alistKeys_upsert]
      constructor
      · rintro ((h | rfl) | ⟨y, hy, hyk⟩)
        · exact Or.inl h
        · exact Or.inr ⟨x, List.mem_cons_self x xs, rfl⟩
        · exact Or.inr ⟨y, List.mem_cons_of_mem _ hy, hyk⟩
      · rintro (h | ⟨y, hy, hyk⟩)
        · exact Or.inl (Or.inl h)
        · rcases List.mem_cons.mp hy with rfl | hy'
          · exact Or.inl (Or.inr hyk.symm)
          · exact Or.inr ⟨y, hy', hyk⟩

theorem nodup_alistKeys_keyFold (key : α → κ) (step : β → α → β) (dflt : β)
    (l : List α) (m : List (κ × β)) (h : (alistKeys m).Nodup) :
    (alistKeys (l.foldl (fun m x => upsert (key x) (fun v => step v x) dflt m) m)).Nodup := by
  induction l generalizing m with
  | nil => exact h
  | cons x xs ih =>
      exact ih _ (nodup_alistKeys_upsert _ _ _ _ h)

end KeyFold

/-! ### Characterization of the grouping operations -/

/-- The inner `defaultdict(list)` accumulation of `_group_clauses`,
characterized: the bucket at a jurisdiction is exactly the filtered
clause list, in discovery order. -/
theorem inner_group_lookup (ds : List ExtractedClause) (j : String) :
    alistLookup (ds.foldl
        (fun inner c => upsert c.jurisdiction (fun cs => cs ++ [c]) [] inner) []) j
      = if ∃ c ∈ ds, c.jurisdiction = j
        then some (ds.filter (fun c => c.jurisdiction = j))
        else none := by
  have h := alistLookup_keyFold (fun c : ExtractedClause => c.jurisdiction)
    (fun cs c => cs ++ [c]) [] ds [] j
  rw [h]
  by_cases hc : ∃ c ∈ ds, c.jurisdiction = j
  · rw [if_pos (Or.inr hc), if_pos hc]
    rw [foldl_append_singleton]
    simp [alistLookup]
  · have hno : ¬ ((alistLookup ([] : List (String × List ExtractedClause)) j).isSome = true ∨
        ∃ x ∈ ds, x.jurisdiction = j) := by
      rintro (h1 | h2)
      · simp [alistLookup] at h1
      · exact hc h2
    rw [if_neg hno, if_neg hc]

/-- `_group_clauses`, outer level: the entry at a lower-cased topic is
the inner grouping of the clauses with that topic. -/
theorem group_clauses_lookup (clauses : List ExtractedClause) (t : String) :
    alistLookup (group_clauses clauses) t
      = if ∃ c ∈ clauses, pyLower c.topic = t
        then some ((clauses.filter (fun c => pyLower c.topic = t)).foldl
            (fun inner c => upsert c.jurisdiction (fun cs => cs ++ [c]) [] inner) [])
        else none := by
  have h := alistLookup_keyFold (fun c : ExtractedClause => pyLower c.topic)
    (fun inner c => upsert c.jurisdiction (fun cs => cs ++ [c]) [] inner) [] clauses [] t
  have hg : group_clauses clauses
      = clauses.foldl (fun m c => upsert (pyLower c.topic)
          (fun v => upsert c.jurisdiction (fun cs => cs ++ [c]) [] v) [] m) [] := rfl
  rw [hg, h]
  by_cases hc : ∃ c ∈ clauses, pyLower c.topic = t
  · rw [if_pos (Or.inr hc), if_pos hc]
    simp [alistLookup]
  · have hno : ¬ ((alistLookup ([] : List (String × List (String × List ExtractedClause))) t).isSome = true ∨
        ∃ x ∈ clauses, pyLower x.topic = t) := by
      rintro (h1 | h2)
      · simp [alistLookup] at h1
      · exact hc h2
    rw [if_neg hno, if_neg hc]

/-- The keys of `_group_clauses` are the lower-cased topics. -/
theorem mem_group_clauses_keys (clauses : List ExtractedClause) (t : String) :
    t ∈ alistKeys (group_clauses clauses) ↔ ∃ c ∈ clauses, pyLower c.topic = t := by
  have h := mem_alistKeys_keyFold (fun c : ExtractedClause => pyLower c.topic)
    (fun inner c => upsert c.jurisdiction (fun cs => cs ++ [c]) [] inner) [] clauses [] t
  have hg : group_clauses clauses
      = clauses.foldl (fun m c => upsert (pyLower c.topic)
          (fun v => upsert c.jurisdiction (fun cs => cs ++ [c]) [] v) [] m) [] := rfl
  rw [hg, h]
  simp [alistKeys]

/-- The keys of `_group_clauses` are distinct. -/
theorem nodup_group_clauses_keys (clauses : List ExtractedClause) :
    (alistKeys (group_clauses clauses)).Nodup := by
  have h := nodup_alistKeys_keyFold (fun c : ExtractedClause => pyLower c.topic)
    (fun inner c => upsert c.jurisdiction (fun cs => cs ++ [c]) [] inner) [] clauses []
    (by simp [alistKeys])
  exact h

/-- The keys of an inner grouping: the jurisdictions of the grouped
clauses. -/
theorem mem_inner_group_keys (ds : List ExtractedClause) (j : String) :
    j ∈ alistKeys (ds.foldl
        (fun inner c => upsert c.jurisdiction (fun cs => cs ++ [c]) [] inner) [])
      ↔ ∃ c ∈ ds, c.jurisdiction = j := by
  have h := mem_alistKeys_keyFold (fun c : ExtractedClause => c.jurisdiction)
    (fun cs c => cs ++ [c]) [] ds [] j
  rw [h]
  simp [alistKeys]

/-- The keys of an inner grouping are distinct. -/
theorem nodup_inner_group_keys (ds : List ExtractedClause) :
    (alistKeys (ds.foldl
        (fun inner c => upsert c.jurisdiction (fun cs => cs ++ [c]) [] inner) [])).Nodup := by
  exact nodup_alistKeys_keyFold (fun c : ExtractedClause => c.jurisdiction)
    (fun cs c => cs ++ [c]) [] ds [] (by simp [alistKeys])

/-! ### Claim C8 - the Extract validation invariant -/

/-- Membership characterization of `validate_clauses`. -/
theorem validate_clauses_mem_iff (clauses : List ExtractedClause)
    (c : ExtractedClause) :
    c ∈ validate_clauses clauses ↔
      c ∈ clauses ∧ 20 < pyStripLen c.clause_text ∧
        ∃ q : ℚ, c.confidence_score = some q ∧ 1 / 2 < q := by
  unfold validate_clauses
  rw [foldl_guard_append]
  rw [List.nil_append, List.mem_filter]
  constructor
  · rintro ⟨hmem, hcond⟩
    refine ⟨hmem, ?_⟩
    rcases Bool.and_eq_true_iff.mp hcond with ⟨h1, h2⟩
    refine ⟨of_decide_eq_true h1, ?_⟩
    cases hconf : c.confidence_score with
    | none => rw [hconf] at h2; simp at h2
    | some q =>
        rw [hconf] at h2
        rcases Bool.and_eq_true_iff.mp h2 with ⟨_, h4⟩
        have hq : (0.5 : ℚ) < q := of_decide_eq_true h4
        exact ⟨q, rfl, by linarith⟩
  · rintro ⟨hmem, hlen, q, hconf, hq⟩
    refine ⟨hmem, ?_⟩
    rw [Bool.and_eq_true_iff]
    refine ⟨decide_eq_true hlen, ?_⟩
    rw [hconf, Bool.and_eq_true_iff]
    constructor
    · have : ¬ q = 0 := by intro h0; rw [h0] at hq; norm_num at hq
      simp [this]
    · exact decide_eq_true (by linarith)

/-- Claim C8: every clause present on the context after the Extract
stage's validation pass has stripped text longer than the minimum
length threshold (20) and a present confidence value above the minimum
confidence threshold (0.5); a clause failing either check is silently
dropped - the context's clause list is exactly the filtered list and
the node records no error. -/
theorem claim_C8 :
    (∀ (clauses : List ExtractedClause) (c : ExtractedClause),
      c ∈ validate_clauses clauses ↔
        c ∈ clauses ∧ 20 < pyStripLen c.clause_text ∧
          ∃ q : ℚ, c.confidence_score = some q ∧ 1 / 2 < q) ∧
    (∀ (P : Providers) (s : WorkflowState),
      (extract_node P s).error = s.error ∧
      (extract_node P s).clauses
        = validate_clauses (extract_clauses P.extractOllama P.extractDecode s.documents)) :=
  ⟨validate_clauses_mem_iff, fun _ _ => ⟨rfl, rfl⟩⟩

/-! ### Branch lemmas for the workflow nodes -/

theorem search_node_err (P : Providers) (s : WorkflowState) (e : String)
    (h : search_documents P.tavily s.query (some s.regions) (some s.document_types)
      = Except.error e) :
    search_node P s = { s with
      status := QueryStatus.failed
      progress := { s.progress with search_agent := 0.0 }
      error := some ("Search failed: " ++ e) } := by
  unfold search_node
  dsimp only
  rw [h]

theorem search_node_ok (P : Providers) (s : WorkflowState) (docs : List Document)
    (h : search_documents P.tavily s.query (some s.regions) (some s.document_types)
      = Except.ok docs) :
    search_node P s = { s with
      status := QueryStatus.searching
      progress := { s.progress with search_agent := 1.0 }
      documents :=
        if ¬ s.max_documents = (0 : Int) then pySliceTo docs s.max_documents
        else docs } := by
  unfold search_node
  dsimp only
  rw [h]

theorem summarize_node_err (P : Providers) (s : WorkflowState) (e : String)
    (h : generate_summary P.summarizeOllama P.summaryDecode s.query s.documents
        s.clauses s.comparisons = Except.error e) :
    summarize_node P s = { s with
      status := QueryStatus.failed
      progress := { s.progress with summarize_agent := 0.0 }
      error := some ("Summarization failed: " ++ e) } := by
  unfold summarize_node
  dsimp only
  rw [h]

theorem summarize_node_ok (P : Providers) (s : WorkflowState) (summ : Summary)
    (h : generate_summary P.summarizeOllama P.summaryDecode s.query s.documents
        s.clauses s.comparisons = Except.ok summ) :
    summarize_node P s = { s with
      status := QueryStatus.summarizing
      progress := { s.progress with summarize_agent := 1.0 }
      summary := some summ } := by
  unfold summarize_node
  dsimp only
  rw [h]

/-! ### Claim C2 - fail-fast stage sequencing -/

theorem should_continue_none {s : WorkflowState} (h : s.error = none) :
    should_continue s = true := by
  simp [should_continue, h]

theorem should_continue_some {s : WorkflowState} {m : String} (h : s.error = some m)
    (hm : ¬ m = "") : should_continue s = false := by
  simp [should_continue, h, hm]

theorem append_ne_empty_left (p e : String) (hp : p.length ≠ 0) : ¬ (p ++ e) = "" := by
  intro h
  have h2 := congrArg String.length h
  rw [String.length_append] at h2
  have h3 : ("" : String).length = 0 := rfl
  rw [h3] at h2
  omega

/-- Claim C2: after any stage records an error the engine stops: a
failed Search leaves the run at exactly the post-Search context (no
later node, not even finalize, runs and the context is not mutated
further), with terminal `failed` status and an error message naming the
stage; the Extract and Compare nodes never record an error of their
own; and a failed Summarize likewise ends the run at exactly the
post-Summarize context with `failed` status and a stage-named message. -/
theorem claim_C2 (P : Providers) (s0 : WorkflowState) (h0 : s0.error = none) :
    (should_continue (search_node P s0) = false →
      runWorkflow P s0 = search_node P s0 ∧
      (search_node P s0).status = QueryStatus.failed ∧
      ∃ m, (search_node P s0).error = some ("Search failed: " ++ m)) ∧
    ((extract_node P (search_node P s0)).error = (search_node P s0).error ∧
     (compare_node P (extract_node P (search_node P s0))).error
        = (extract_node P (search_node P s0)).error) ∧
    (should_continue (search_node P s0) = true →
      should_continue
          (summarize_node P (compare_node P (extract_node P (search_node P s0)))) = false →
      runWorkflow P s0
          = summarize_node P (compare_node P (extract_node P (search_node P s0))) ∧
      (summarize_node P (compare_node P (extract_node P (search_node P s0)))).status
          = QueryStatus.failed ∧
      ∃ m, (summarize_node P (compare_node P (extract_node P (search_node P s0)))).error
          = some ("Summarization failed: " ++ m)) := by
  refine ⟨?_, ⟨rfl, rfl⟩, ?_⟩
  · intro hfail
    have hrun : runWorkflow P s0 = search_node P s0 := by
      unfold runWorkflow
      dsimp only
      rw [hfail]
      simp
    cases hsd : search_documents P.tavily s0.query (some s0.regions) (some s0.document_types) with
    | error e =>
        refine ⟨hrun, ?_, e, ?_⟩
        · rw [search_node_err P s0 e hsd]
        · rw [search_node_err P s0 e hsd]
    | ok docs =>
        have hx : should_continue (search_node P s0) = true := by
          rw [search_node_ok P s0 docs hsd]
          exact should_continue_none h0
        rw [hx] at hfail
        exact absurd hfail (by simp)
  · intro hok hfail4
    have h2 : should_continue (extract_node P (search_node P s0)) = true := hok
    have h3 : should_continue (compare_node P (extract_node P (search_node P s0))) = true := hok
    have hrun : runWorkflow P s0
        = summarize_node P (compare_node P (extract_node P (search_node P s0))) := by
      unfold runWorkflow
      dsimp only
      rw [hok, h2, h3, hfail4]
      simp
    have hs1err : (search_node P s0).error = none := by
      cases hsd : search_documents P.tavily s0.query (some s0.regions) (some s0.document_types) with
      | error e =>
          exfalso
          rw [search_node_err P s0 e hsd] at hok
          rw [should_continue_some rfl (append_ne_empty_left _ e (by decide))] at hok
          exact absurd hok (by simp)
      | ok docs =>
          rw [search_node_ok P s0 docs hsd]
          exact h0
    have hs3err : (compare_node P (extract_node P (search_node P s0))).error = none := hs1err
    cases hgen : generate_summary P.summarizeOllama P.summaryDecode
        (compare_node P (extract_node P (search_node P s0))).query
        (compare_node P (extract_node P (search_node P s0))).documents
        (compare_node P (extract_node P (search_node P s0))).clauses
        (compare_node P (extract_node P (search_node P s0))).comparisons with
    | error e =>
        refine ⟨hrun, ?_, e, ?_⟩
        · rw [summarize_node_err P _ e hgen]
        · rw [summarize_node_err P _ e hgen]
    | ok summ =>
        have hx : should_continue
            (summarize_node P (compare_node P (extract_node P (search_node P s0)))) = true := by
          rw [summarize_node_ok P _ summ hgen]
          exact should_continue_none hs3err
        rw [hx] at hfail4
        exact absurd hfail4 (by simp)

/-- Witness for C2 at a concrete failing search provider. -/
theorem claim_C2_witness :
    runWorkflow failSearchProviders (initial_state fixtureQuery)
        = search_node failSearchProviders (initial_state fixtureQuery) ∧
      (search_node failSearchProviders (initial_state fixtureQuery)).status
        = QueryStatus.failed ∧
      ∃ m, (search_node failSearchProviders (initial_state fixtureQuery)).error
          = some ("Search failed: " ++ m) :=
  (claim_C2 failSearchProviders (initial_state fixtureQuery) rfl).1 (by decide)

/-! ### Claim C1 - provider errors: termination vs absorption -/

/-- Counterexample to claim C1 as stated: with a provider whose
per-document extraction call always raises, the run still ends in
`completed` (with an empty clause list), instead of terminating in
`failed`. -/
theorem claim_C1_counterexample :
    (∀ d, failExtractProviders.extractOllama d = Except.error "timeout") ∧
    (runWorkflow failExtractProviders (initial_state fixtureQuery)).status
        = QueryStatus.completed ∧
    ¬ (runWorkflow failExtractProviders (initial_state fixtureQuery)).status
        = QueryStatus.failed ∧
    (runWorkflow failExtractProviders (initial_state fixtureQuery)).clauses = [] ∧
    (runWorkflow failExtractProviders (initial_state fixtureQuery)).documents.length = 1 ∧
    compare_clauses failCompareProviders.compareOllama failCompareProviders.compareDecode
        [fixtureClause "Safety" "EU", fixtureClause "safety" "US"] = [] :=
  ⟨fun _ => rfl, by decide, by decide, by decide, by decide, by decide⟩

/-- Claim C1 (amended): a provider error raised by the Search stage's
call, or by the Summarize stage's call, terminates the run - the error
is wrapped with the stage name, the status becomes `failed`, and no
later node (not even finalize) runs.  But a provider error raised
inside the Extract stage's per-document call is absorbed into an empty
clause list for that document, and one raised inside the Compare
stage's per-topic call is absorbed into a missing comparison for that
topic: the Extract and Compare nodes never record an error and the run
continues. -/
theorem claim_C1_amended :
    (∀ (ollama : Document → Except String String)
        (decode : String → Option (List ExtractItem)) (d : Document) (e : String),
      ollama d = Except.error e → extract_from_document ollama decode d = []) ∧
    (∀ (ollama : String → List (String × List ExtractedClause) → Except String String)
        (decode : String → Option CompData) (t : String)
        (jc : List (String × List ExtractedClause)) (e : String),
      ollama t jc = Except.error e → compare_topic ollama decode t jc = none) ∧
    (∀ (P : Providers) (s : WorkflowState),
      (extract_node P s).error = s.error ∧ (compare_node P s).error = s.error) ∧
    (∀ (P : Providers) (s : WorkflowState) (e : String),
      generate_summary P.summarizeOllama P.summaryDecode s.query s.documents
          s.clauses s.comparisons = Except.error e →
      (summarize_node P s).status = QueryStatus.failed ∧
      (summarize_node P s).error = some ("Summarization failed: " ++ e)) ∧
    (∀ (P : Providers) (s0 : WorkflowState) (e : String), s0.error = none →
      P.tavily (build_search_query s0.query (some s0.regions) (some s0.document_types))
          = Except.error e →
      runWorkflow P s0 = search_node P s0 ∧
      (search_node P s0).status = QueryStatus.failed ∧
      (search_node P s0).error = some ("Search failed: " ++ e)) := by
  refine ⟨?_, ?_, fun _ _ => ⟨rfl, rfl⟩, ?_, ?_⟩
  · intro ollama decode d e h
    unfold extract_from_document
    rw [h]
  · intro ollama decode t jc e h
    unfold compare_topic
    rw [h]
  · intro P s e hgen
    constructor
    · rw [summarize_node_err P s e hgen]
    · rw [summarize_node_err P s e hgen]
  · intro P s0 e h0 htav
    have hsd : search_documents P.tavily s0.query (some s0.regions)
        (some s0.document_types) = Except.error e := by
      unfold search_documents
      rw [htav]
    have hrec := search_node_err P s0 e hsd
    have herr : (search_node P s0).error = some ("Search failed: " ++ e) := by rw [hrec]
    have hst : (search_node P s0).status = QueryStatus.failed := by rw [hrec]
    have hsc : should_continue (search_node P s0) = false :=
      should_continue_some herr (append_ne_empty_left "Search failed: " e (by decide))
    refine ⟨?_, hst, herr⟩
    unfold runWorkflow
    dsimp only
    rw [hsc]
    simp

/-- Witness for the amended C1 at concrete failing providers. -/
theorem claim_C1_amended_witness :
    extract_from_document failExtractProviders.extractOllama
        failExtractProviders.extractDecode fixtureDoc = [] ∧
    compare_topic failCompareProviders.compareOllama failCompareProviders.compareDecode
        "safety" [("EU", [fixtureClause "safety" "EU"])] = none ∧
    (summarize_node failSummarizeProviders (initial_state fixtureQuery)).status
        = QueryStatus.failed ∧
    runWorkflow failSearchProviders (initial_state fixtureQuery)
        = search_node failSearchProviders (initial_state fixtureQuery) ∧
    (search_node failSearchProviders (initial_state fixtureQuery)).error
        = some ("Search failed: " ++ "timeout") :=
  ⟨claim_C1_amended.1 _ _ fixtureDoc "timeout" rfl,
   claim_C1_amended.2.1 _ _ "safety" [("EU", [fixtureClause "safety" "EU"])] "timeout" rfl,
   (claim_C1_amended.2.2.2.1 failSummarizeProviders (initial_state fixtureQuery)
      "timeout" rfl).1,
   (claim_C1_amended.2.2.2.2 failSearchProviders (initial_state fixtureQuery)
      "timeout" rfl rfl).1,
   (claim_C1_amended.2.2.2.2 failSearchProviders (initial_state fixtureQuery)
      "timeout" rfl rfl).2.2⟩

/-! ### Claim C9 - the default document budget -/

/-- Claim C9: a submitted query whose `max_documents` is 0 or absent is
initialized with the default budget of 10 (`max_documents or 10`), so
the Search stage truncates to the first 10 processed documents - at
most 10, never zero. -/
theorem claim_C9 (rq : ResearchQuery)
    (h : rq.max_documents = none ∨ rq.max_documents = some 0) :
    (initial_state rq).max_documents = 10 ∧
    (∀ (P : Providers) (results : List RawResult),
      P.tavily (build_search_query (initial_state rq).query
          (some (initial_state rq).regions) (some (initial_state rq).document_types))
        = Except.ok results →
      (search_node P (initial_state rq)).documents
          = (process_search_results results (some (initial_state rq).regions)).take 10 ∧
      (search_node P (initial_state rq)).documents.length ≤ 10) := by
  have hmax : (initial_state rq).max_documents = 10 := by
    show pyOrInt rq.max_documents 10 = 10
    rcases h with h | h <;> rw [h] <;> simp [pyOrInt]
  refine ⟨hmax, ?_⟩
  intro P results htav
  have hsd : search_documents P.tavily (initial_state rq).query
      (some (initial_state rq).regions) (some (initial_state rq).document_types)
      = Except.ok (process_search_results results (some (initial_state rq).regions)) := by
    unfold search_documents
    rw [htav]
  have hrec := search_node_ok P (initial_state rq)
    (process_search_results results (some (initial_state rq).regions)) hsd
  have hdocs : (search_node P (initial_state rq)).documents
      = (process_search_results results (some (initial_state rq).regions)).take 10 := by
    rw [hrec]
    show (if ¬ (initial_state rq).max_documents = (0 : Int)
          then pySliceTo (process_search_results results (some (initial_state rq).regions))
            (initial_state rq).max_documents
          else process_search_results results (some (initial_state rq).regions))
        = (process_search_results results (some (initial_state rq).regions)).take 10
    rw [hmax]
    rw [if_pos (by norm_num)]
    unfold pySliceTo
    rw [if_pos (by norm_num)]
    rfl
  refine ⟨hdocs, ?_⟩
  rw [hdocs]
  exact List.length_take_le 10 _

/-- Witness for C9: both the absent and the zero budget at concrete
inputs. -/
theorem claim_C9_witness :
    (initial_state fixtureQuery).max_documents = 10 ∧
    (initial_state fixtureQueryZeroMax).max_documents = 10 ∧
    (search_node okProviders (initial_state fixtureQueryZeroMax)).documents
        = (process_search_results [fixtureRawResult]
            (some (initial_state fixtureQueryZeroMax).regions)).take 10 :=
  ⟨(claim_C9 fixtureQuery (Or.inl rfl)).1,
   (claim_C9 fixtureQueryZeroMax (Or.inr rfl)).1,
   ((claim_C9 fixtureQueryZeroMax (Or.inr rfl)).2 okProviders [fixtureRawResult] rfl).1⟩

/-! ### Claim C3 - region inference fallback -/

/-- Counterexample to claim C3 as stated: in a run with no requested
region, a result matching no jurisdiction keyword is assigned region
"Unknown", not "Global" - `run_research` normalizes absent regions to
the empty list, and `_extract_region` reserves "Global" for a literal
`None` argument it never receives from the pipeline. -/
theorem claim_C3_counterexample :
    fixtureQuery.regions = none ∧
    extract_region fixtureRawResult (some (initial_state fixtureQuery).regions)
        = "Unknown" ∧
    ¬ extract_region fixtureRawResult (some (initial_state fixtureQuery).regions)
        = "Global" ∧
    (search_node okProviders (initial_state fixtureQuery)).documents.map
        (fun d => d.region) = [some "Unknown"] :=
  ⟨rfl, by decide, by decide, by decide⟩

/-- Claim C3 (amended): in a run where no region was requested (absent
or empty), each search result's region is the EU/US/UK keyword match on
its content or URL, and otherwise falls back to "Unknown" - the
pipeline passes the normalized empty region list to `_extract_region`,
whose "Global" fallback is only reached when the regions argument is
literally `None`. -/
theorem claim_C3_amended (rq : ResearchQuery)
    (h : rq.regions = none ∨ rq.regions = some []) (result : RawResult) :
    (initial_state rq).regions = [] ∧
    extract_region result (some (initial_state rq).regions)
        = specRegionInference result "Unknown" ∧
    extract_region result none = specRegionInference result "Global" := by
  have h1 : (initial_state rq).regions = [] := by
    show pyOrList rq.regions [] = []
    rcases h with h | h <;> rw [h] <;> simp [pyOrList]
  refine ⟨h1, ?_, rfl⟩
  rw [h1]
  rfl

/-- Witness for the amended C3 at a concrete query and result. -/
theorem claim_C3_amended_witness :
    (initial_state fixtureQuery).regions = [] ∧
    extract_region fixtureRawResult (some (initial_state fixtureQuery).regions)
        = specRegionInference fixtureRawResult "Unknown" ∧
    extract_region fixtureRawResult none = specRegionInference fixtureRawResult "Global" :=
  claim_C3_amended fixtureQuery (Or.inl rfl) fixtureRawResult

/-! ### Claims C4 and C10 - the Compare stage grouping -/

theorem compare_clauses_eq
    (ollama : String → List (String × List ExtractedClause) → Except String String)
    (decode : String → Option CompData) (clauses : List ExtractedClause) :
    compare_clauses ollama decode clauses
      = (group_clauses clauses).filterMap (fun entry =>
          if 1 < entry.2.length then compare_topic ollama decode entry.1 entry.2
          else none) := by
  unfold compare_clauses
  have aux : ∀ (g : Grouped) (acc : List Comparison),
      g.foldl (fun comparisons entry =>
        if 1 < entry.2.length then
          match compare_topic ollama decode entry.1 entry.2 with
          | some comparison => comparisons ++ [comparison]
          | none => comparisons
        else comparisons) acc
      = acc ++ g.filterMap (fun entry =>
          if 1 < entry.2.length then compare_topic ollama decode entry.1 entry.2
          else none) := by
    intro g
    induction g with
    | nil => intro acc; simp
    | cons e rest ih =>
        intro acc
        rw [List.foldl_cons, List.filterMap_cons]
        by_cases h : 1 < e.2.length
        · rw [if_pos h, if_pos h]
          cases hct : compare_topic ollama decode e.1 e.2 with
          | some c => rw [ih]; simp
          | none => rw [ih]
        · rw [if_neg h, if_neg h, ih]
  rw [aux]
  simp

theorem compare_topic_fields
    (ollama : String → List (String × List ExtractedClause) → Except String String)
    (decode : String → Option CompData) (t : String)
    (jc : List (String × List ExtractedClause)) (c : Comparison)
    (h : compare_topic ollama decode t jc = some c) :
    c.topic = t ∧ c.jurisdictions_compared = alistKeys jc := by
  unfold compare_topic at h
  cases ho : ollama t jc with
  | error e => rw [ho] at h; simp at h
  | ok r =>
      rw [ho] at h
      have hc := Option.some.inj h
      rw [← hc]
      unfold parse_comparison_response
      split
      · exact ⟨rfl, rfl⟩
      · split
        · exact ⟨rfl, rfl⟩
        · exact ⟨rfl, rfl⟩

theorem mem_compare_clauses
    (ollama : String → List (String × List ExtractedClause) → Except String String)
    (decode : String → Option CompData) (clauses : List ExtractedClause)
    (c : Comparison) (hmem : c ∈ compare_clauses ollama decode clauses) :
    ∃ jc, alistLookup (group_clauses clauses) c.topic = some jc ∧ 1 < jc.length ∧
      c.jurisdictions_compared = alistKeys jc := by
  rw [compare_clauses_eq] at hmem
  rcases List.mem_filterMap.mp hmem with ⟨entry, hent, hf⟩
  by_cases h : 1 < entry.2.length
  · rw [if_pos h] at hf
    obtain ⟨ht, hj⟩ := compare_topic_fields _ _ _ _ _ hf
    refine ⟨entry.2, ?_, h, hj⟩
    rw [ht]
    exact alistLookup_eq_some_of_mem _ _ _ (nodup_group_clauses_keys clauses)
      (by simpa using hent)
  · rw [if_neg h] at hf
    exact absurd hf (by simp)

/-- Claim C10: every Comparison produced by the Compare stage carries
as its topic the lower-cased grouping key of some contributing clause
(on both the structured-parse and the fallback path, which is why the
statement is universal in the decoder and the provider), and its
`jurisdictions_compared` lists exactly the jurisdictions that
contributed clauses for that topic. -/
theorem claim_C10
    (ollama : String → List (String × List ExtractedClause) → Except String String)
    (decode : String → Option CompData) (clauses : List ExtractedClause)
    (comp : Comparison) (h : comp ∈ compare_clauses ollama decode clauses) :
    (∃ c ∈ clauses, pyLower c.topic = comp.topic) ∧
    (∀ j, j ∈ comp.jurisdictions_compared ↔
      ∃ c ∈ clauses, pyLower c.topic = comp.topic ∧ c.jurisdiction = j) := by
  obtain ⟨jc, hlook, hlen, hjur⟩ := mem_compare_clauses ollama decode clauses comp h
  rw [group_clauses_lookup] at hlook
  by_cases hc : ∃ c ∈ clauses, pyLower c.topic = comp.topic
  · rw [if_pos hc] at hlook
    have hjc := Option.some.inj hlook
    refine ⟨hc, ?_⟩
    intro j
    rw [hjur, ← hjc, mem_inner_group_keys]
    constructor
    · rintro ⟨c, hcf, hcj⟩
      rcases List.mem_filter.mp hcf with ⟨hcm, hct⟩
      exact ⟨c, hcm, of_decide_eq_true hct, hcj⟩
    · rintro ⟨c, hcm, hct, hcj⟩
      exact ⟨c, List.mem_filter.mpr ⟨hcm, decide_eq_true hct⟩, hcj⟩
  · rw [if_neg hc] at hlook
    exact absurd hlook (by simp)

theorem compare_clauses_two_jurisdictions
    (ollama : String → List (String × List ExtractedClause) → Except String String)
    (decode : String → Option CompData) (clauses : List ExtractedClause)
    (comp : Comparison) (h : comp ∈ compare_clauses ollama decode clauses) :
    ∃ c1 ∈ clauses, ∃ c2 ∈ clauses, pyLower c1.topic = comp.topic ∧
      pyLower c2.topic = comp.topic ∧ ¬ c1.jurisdiction = c2.jurisdiction := by
  obtain ⟨jc, hlook, hlen, hjur⟩ := mem_compare_clauses ollama decode clauses comp h
  rw [group_clauses_lookup] at hlook
  by_cases hc : ∃ c ∈ clauses, pyLower c.topic = comp.topic
  · rw [if_pos hc] at hlook
    have hjc := Option.some.inj hlook
    have hnd : (alistKeys jc).Nodup := by
      rw [← hjc]
      exact nodup_inner_group_keys _
    match jc, hlen with
    | e1 :: e2 :: rest, _ =>
      have hne : ¬ e1.1 = e2.1 := by
        have : alistKeys (e1 :: e2 :: rest) = e1.1 :: e2.1 :: alistKeys rest := rfl
        rw [this] at hnd
        intro heq
        exact (List.nodup_cons.mp hnd).1 (heq ▸ List.mem_cons_self e2.1 (alistKeys rest))
      have hm1 : e1.1 ∈ alistKeys (e1 :: e2 :: rest) := List.mem_cons_self _ _
      have hm2 : e2.1 ∈ alistKeys (e1 :: e2 :: rest) :=
        List.mem_cons_of_mem _ (List.mem_cons_self _ _)
      rw [← hjc, mem_inner_group_keys] at hm1 hm2
      obtain ⟨c1, hc1f, hc1j⟩ := hm1
      obtain ⟨c2, hc2f, hc2j⟩ := hm2
      rcases List.mem_filter.mp hc1f with ⟨hc1m, hc1t⟩
      rcases List.mem_filter.mp hc2f with ⟨hc2m, hc2t⟩
      refine ⟨c1, hc1m, c2, hc2m, of_decide_eq_true hc1t, of_decide_eq_true hc2t, ?_⟩
      rw [hc1j, hc2j]
      exact hne
  · rw [if_neg hc] at hlook
    exact absurd hlook (by simp)

/-- Claim C4: a topic whose clauses all carry one jurisdiction produces
no Comparison - every produced Comparison has contributing clauses from
two distinct jurisdictions (topics grouped case-insensitively); in
particular a clause list with a single shared jurisdiction yields zero
Comparisons. -/
theorem claim_C4
    (ollama : String → List (String × List ExtractedClause) → Except String String)
    (decode : String → Option CompData) (clauses : List ExtractedClause) :
    ((∃ j, ∀ c ∈ clauses, c.jurisdiction = j) →
      compare_clauses ollama decode clauses = []) ∧
    (∀ comp ∈ compare_clauses ollama decode clauses,
      ∃ c1 ∈ clauses, ∃ c2 ∈ clauses, pyLower c1.topic = comp.topic ∧
        pyLower c2.topic = comp.topic ∧ ¬ c1.jurisdiction = c2.jurisdiction) := by
  refine ⟨?_, fun comp h => compare_clauses_two_jurisdictions ollama decode clauses comp h⟩
  rintro ⟨j0, hall⟩
  rw [List.eq_nil_iff_forall_not_mem]
  intro comp hmem
  obtain ⟨c1, hc1m, c2, hc2m, _, _, hne⟩ :=
    compare_clauses_two_jurisdictions ollama decode clauses comp hmem
  exact hne (by rw [hall c1 hc1m, hall c2 hc2m])

/-- Witness for C4: a two-clause single-jurisdiction input (topics in
mixed case) produces zero comparisons. -/
theorem claim_C4_witness :
    compare_clauses okProviders.compareOllama okProviders.compareDecode
        [fixtureClause "Safety" "EU", fixtureClause "safety" "EU"] = [] :=
  (claim_C4 okProviders.compareOllama okProviders.compareDecode
    [fixtureClause "Safety" "EU", fixtureClause "safety" "EU"]).1 ⟨"EU", by decide⟩

set_option maxRecDepth 8000 in
/-- Witness for C10: the fallback comparison produced for the
mixed-case topic "Safety"/"safety" across EU and US. -/
theorem claim_C10_witness :
    (∃ c ∈ [fixtureClause "Safety" "EU", fixtureClause "safety" "US"],
        pyLower c.topic = "safety") ∧
    (∀ j, j ∈ ["EU", "US"] ↔
      ∃ c ∈ [fixtureClause "Safety" "EU", fixtureClause "safety" "US"],
        pyLower c.topic = "safety" ∧ c.jurisdiction = j) :=
  claim_C10 okProviders.compareOllama okProviders.compareDecode
    [fixtureClause "Safety" "EU", fixtureClause "safety" "US"]
    (create_fallback_comparison "safety"
      [("EU", [fixtureClause "Safety" "EU"]), ("US", [fixtureClause "safety" "US"])])
    (by
      rw [show compare_clauses okProviders.compareOllama okProviders.compareDecode
            [fixtureClause "Safety" "EU", fixtureClause "safety" "US"]
          = [create_fallback_comparison "safety"
              [("EU", [fixtureClause "Safety" "EU"]),
               ("US", [fixtureClause "safety" "US"])]] from rfl]
      exact List.mem_singleton.mpr rfl)

/-! ### Claim C7 - coverage gaps -/

theorem mem_dedup_fold {α : Type} (f : α → String) (l : List α) (acc : List String)
    (t : String) :
    t ∈ l.foldl (fun acc c => if f c ∈ acc then acc else acc ++ [f c]) acc ↔
      t ∈ acc ∨ ∃ c ∈ l, f c = t := by
  induction l generalizing acc with
  | nil => simp
  | cons x xs ih =>
      rw [List.foldl_cons]
      by_cases h : f x ∈ acc
      · rw [if_pos h, ih]
        constructor
        · rintro (ha | ⟨c, hc, hct⟩)
          · exact Or.inl ha
          · exact Or.inr ⟨c, List.mem_cons_of_mem _ hc, hct⟩
        · rintro (ha | ⟨c, hc, hct⟩)
          · exact Or.inl ha
          · rcases List.mem_cons.mp hc with rfl | hc'
            · exact Or.inl (hct ▸ h)
            · exact Or.inr ⟨c, hc', hct⟩
      · rw [if_neg h, ih]
        constructor
        · rintro (ha | ⟨c, hc, hct⟩)
          · rcases List.mem_append.mp ha with ha' | ha'
            · exact Or.inl ha'
            · exact Or.inr ⟨x, List.mem_cons_self _ _, (List.mem_singleton.mp ha').symm⟩
          · exact Or.inr ⟨c, List.mem_cons_of_mem _ hc, hct⟩
        · rintro (ha | ⟨c, hc, hct⟩)
          · exact Or.inl (List.mem_append.mpr (Or.inl ha))
          · rcases List.mem_cons.mp hc with rfl | hc'
            · exact Or.inl (List.mem_append.mpr (Or.inr (List.mem_singleton.mpr hct.symm)))
            · exact Or.inr ⟨c, hc', hct⟩

theorem mem_allTopics_aux (jt : List (String × List String)) (acc : List String)
    (t : String) :
    t ∈ jt.foldl (fun acc entry => acc ++ entry.2.filter (fun x => ¬ x ∈ acc)) acc ↔
      t ∈ acc ∨ ∃ e ∈ jt, t ∈ e.2 := by
  induction jt generalizing acc with
  | nil => simp
  | cons x xs ih =>
      rw [List.foldl_cons, ih]
      constructor
      · rintro (ha | ⟨e, he, het⟩)
        · rcases List.mem_append.mp ha with ha' | ha'
          · exact Or.inl ha'
          · exact Or.inr ⟨x, List.mem_cons_self _ _, (List.mem_filter.mp ha').1⟩
        · exact Or.inr ⟨e, List.mem_cons_of_mem _ he, het⟩
      · rintro (ha | ⟨e, he, het⟩)
        · exact Or.inl (List.mem_append.mpr (Or.inl ha))
        · rcases List.mem_cons.mp he with rfl | he'
          · by_cases hacc : t ∈ acc
            · exact Or.inl (List.mem_append.mpr (Or.inl hacc))
            · exact Or.inl (List.mem_append.mpr (Or.inr
                (List.mem_filter.mpr ⟨het, by simpa using hacc⟩)))
          · exact Or.inr ⟨e, he', het⟩

theorem mem_allTopics (jt : List (String × List String)) (t : String) :
    t ∈ allTopics jt ↔ ∃ e ∈ jt, t ∈ e.2 := by
  unfold allTopics
  rw [mem_allTopics_aux]
  simp

theorem mem_jurisdiction_topics_keys (clauses : List ExtractedClause) (j : String) :
    j ∈ alistKeys (jurisdiction_topics clauses) ↔ ∃ c ∈ clauses, c.jurisdiction = j := by
  have hg : jurisdiction_topics clauses
      = clauses.foldl (fun m c => upsert c.jurisdiction
          (fun v => if pyLower c.topic ∈ v then v else v ++ [pyLower c.topic]) [] m) [] := rfl
  have h := mem_alistKeys_keyFold (fun c : ExtractedClause => c.jurisdiction)
    (fun topics c => if pyLower c.topic ∈ topics then topics
      else topics ++ [pyLower c.topic]) [] clauses [] j
  rw [hg, h]
  simp [alistKeys]

theorem nodup_jurisdiction_topics_keys (clauses : List ExtractedClause) :
    (alistKeys (jurisdiction_topics clauses)).Nodup := by
  exact nodup_alistKeys_keyFold (fun c : ExtractedClause => c.jurisdiction)
    (fun topics c => if pyLower c.topic ∈ topics then topics
      else topics ++ [pyLower c.topic]) [] clauses [] (by simp [alistKeys])

theorem jurisdiction_topics_lookup (clauses : List ExtractedClause) (j : String) :
    alistLookup (jurisdiction_topics clauses) j
      = if ∃ c ∈ clauses, c.jurisdiction = j
        then some ((clauses.filter (fun c => c.jurisdiction = j)).foldl
            (fun topics c => if pyLower c.topic ∈ topics then topics
              else topics ++ [pyLower c.topic]) [])
        else none := by
  have hg : jurisdiction_topics clauses
      = clauses.foldl (fun m c => upsert c.jurisdiction
          (fun v => if pyLower c.topic ∈ v then v else v ++ [pyLower c.topic]) [] m) [] := rfl
  have h := alistLookup_keyFold (fun c : ExtractedClause => c.jurisdiction)
    (fun topics c => if pyLower c.topic ∈ topics then topics
      else topics ++ [pyLower c.topic]) [] clauses [] j
  rw [hg, h]
  by_cases hc : ∃ c ∈ clauses, c.jurisdiction = j
  · rw [if_pos (Or.inr hc), if_pos hc]
    simp [alistLookup]
  · have hno : ¬ ((alistLookup ([] : List (String × List String)) j).isSome = true ∨
        ∃ x ∈ clauses, x.jurisdiction = j) := by
      rintro (h1 | h2)
      · simp [alistLookup] at h1
      · exact hc h2
    rw [if_neg hno, if_neg hc]

theorem mem_topicset (clauses : List ExtractedClause) (j t : String) :
    t ∈ (alistLookup (jurisdiction_topics clauses) j).getD [] ↔
      ∃ c ∈ clauses, c.jurisdiction = j ∧ pyLower c.topic = t := by
  rw [jurisdiction_topics_lookup]
  by_cases h : ∃ c ∈ clauses, c.jurisdiction = j
  · rw [if_pos h, Option.getD_some, mem_dedup_fold]
    constructor
    · rintro (hf | ⟨c, hcf, hct⟩)
      · simp at hf
      · rcases List.mem_filter.mp hcf with ⟨hcm, hcj⟩
        exact ⟨c, hcm, of_decide_eq_true hcj, hct⟩
    · rintro ⟨c, hcm, hcj, hct⟩
      exact Or.inr ⟨c, List.mem_filter.mpr ⟨hcm, decide_eq_true hcj⟩, hct⟩
  · rw [if_neg h]
    simp only [Option.getD_none]
    constructor
    · intro ht; simp at ht
    · rintro ⟨c, hcm, hcj, _⟩; exact absurd ⟨c, hcm, hcj⟩ h

theorem identify_regulatory_gaps_eq (clauses : List ExtractedClause) :
    identify_regulatory_gaps clauses
      = (allTopics (jurisdiction_topics clauses)).filterMap (fun topic =>
          if (jurisdictionsWithTopic clauses topic).length
              < (alistKeys (jurisdiction_topics clauses)).length
          then some (gapMessage clauses topic) else none) := by
  unfold identify_regulatory_gaps
  have h := foldl_ite_append
    (fun topic => (jurisdictionsWithTopic clauses topic).length
        < (alistKeys (jurisdiction_topics clauses)).length)
    (fun topic => gapMessage clauses topic)
    (allTopics (jurisdiction_topics clauses)) []
  exact h.trans (by rw [List.nil_append])

theorem filter_length_lt_exists {α : Type} (p : α → Bool) (l : List α)
    (h : (l.filter p).length < l.length) : ∃ x ∈ l, ¬ p x = true := by
  by_contra hall
  push_neg at hall
  have : l.filter p = l := List.filter_eq_self.mpr hall
  rw [this] at h
  exact Nat.lt_irrefl _ h

/-- Claim C7: when every observed jurisdiction carries exactly the same
set of lower-cased topics, `identify_regulatory_gaps` returns the empty
sequence; a gap sentence is emitted only for a topic that some observed
jurisdiction lacks, and it is exactly the message naming that topic and
the list of jurisdictions lacking it (`missingJurisdictions` is
characterized in the last conjunct). -/
theorem claim_C7 (clauses : List ExtractedClause) :
    ((∀ j1 j2, (∃ c ∈ clauses, c.jurisdiction = j1) →
        (∃ c ∈ clauses, c.jurisdiction = j2) →
        ∀ t, (∃ c ∈ clauses, c.jurisdiction = j1 ∧ pyLower c.topic = t) ↔
             (∃ c ∈ clauses, c.jurisdiction = j2 ∧ pyLower c.topic = t)) →
      identify_regulatory_gaps clauses = []) ∧
    (∀ g ∈ identify_regulatory_gaps clauses, ∃ t,
      (∃ c ∈ clauses, pyLower c.topic = t) ∧
      (∃ j, (∃ c ∈ clauses, c.jurisdiction = j) ∧
        ¬ (∃ c ∈ clauses, c.jurisdiction = j ∧ pyLower c.topic = t)) ∧
      g = gapMessage clauses t) ∧
    (∀ t j, j ∈ missingJurisdictions clauses t ↔
      ((∃ c ∈ clauses, c.jurisdiction = j) ∧
        ¬ (∃ c ∈ clauses, c.jurisdiction = j ∧ pyLower c.topic = t))) := by
  have hwt : ∀ t j, j ∈ jurisdictionsWithTopic clauses t ↔
      ((∃ c ∈ clauses, c.jurisdiction = j) ∧
        (∃ c ∈ clauses, c.jurisdiction = j ∧ pyLower c.topic = t)) := by
    intro t j
    unfold jurisdictionsWithTopic
    rw [List.mem_filter]
    constructor
    · rintro ⟨hk, hm⟩
      exact ⟨(mem_jurisdiction_topics_keys clauses j).mp hk,
        (mem_topicset clauses j t).mp (of_decide_eq_true hm)⟩
    · rintro ⟨hobs, hset⟩
      exact ⟨(mem_jurisdiction_topics_keys clauses j).mpr hobs,
        decide_eq_true ((mem_topicset clauses j t).mpr hset)⟩
  have hmiss : ∀ t j, j ∈ missingJurisdictions clauses t ↔
      ((∃ c ∈ clauses, c.jurisdiction = j) ∧
        ¬ (∃ c ∈ clauses, c.jurisdiction = j ∧ pyLower c.topic = t)) := by
    intro t j
    unfold missingJurisdictions
    rw [List.mem_filter]
    constructor
    · rintro ⟨hk, hm⟩
      have hobs := (mem_jurisdiction_topics_keys clauses j).mp hk
      refine ⟨hobs, fun hset => ?_⟩
      have : j ∈ jurisdictionsWithTopic clauses t := (hwt t j).mpr ⟨hobs, hset⟩
      rw [decide_eq_true_eq] at hm
      exact hm this
    · rintro ⟨hobs, hnset⟩
      refine ⟨(mem_jurisdiction_topics_keys clauses j).mpr hobs, ?_⟩
      rw [decide_eq_true_eq]
      intro hw
      exact hnset ((hwt t j).mp hw).2
  have htop : ∀ t, t ∈ allTopics (jurisdiction_topics clauses) ↔
      ∃ c ∈ clauses, pyLower c.topic = t := by
    intro t
    rw [mem_allTopics]
    constructor
    · rintro ⟨e, he, het⟩
      have hnd := nodup_jurisdiction_topics_keys clauses
      have hlook := alistLookup_eq_some_of_mem _ _ _ hnd he
      have : t ∈ (alistLookup (jurisdiction_topics clauses) e.1).getD [] := by
        rw [hlook]
        exact het
      obtain ⟨c, hcm, _, hct⟩ := (mem_topicset clauses e.1 t).mp this
      exact ⟨c, hcm, hct⟩
    · rintro ⟨c, hcm, hct⟩
      have hobs : ∃ c' ∈ clauses, c'.jurisdiction = c.jurisdiction := ⟨c, hcm, rfl⟩
      have hset : t ∈ (alistLookup (jurisdiction_topics clauses) c.jurisdiction).getD [] :=
        (mem_topicset clauses c.jurisdiction t).mpr ⟨c, hcm, rfl, hct⟩
      rw [jurisdiction_topics_lookup, if_pos hobs, Option.getD_some] at hset
      refine ⟨(c.jurisdiction, (clauses.filter (fun c' => c'.jurisdiction = c.jurisdiction)).foldl
          (fun topics c' => if pyLower c'.topic ∈ topics then topics
            else topics ++ [pyLower c'.topic]) []), ?_, hset⟩
      have := (jurisdiction_topics_lookup clauses c.jurisdiction).symm
      rw [if_pos hobs] at this
      exact mem_of_alistLookup_eq_some _ _ _ this.symm
  refine ⟨?_, ?_, hmiss⟩
  · intro hsame
    rw [identify_regulatory_gaps_eq, List.filterMap_eq_nil_iff]
    intro t ht
    rw [if_neg]
    intro hlt
    obtain ⟨j, hjk, hjfail⟩ := filter_length_lt_exists _ _ hlt
    have hobs := (mem_jurisdiction_topics_keys clauses j).mp hjk
    obtain ⟨c0, hc0m, hc0t⟩ := (htop t).mp ht
    have hobs0 : ∃ c ∈ clauses, c.jurisdiction = c0.jurisdiction := ⟨c0, hc0m, rfl⟩
    have hset0 : ∃ c ∈ clauses, c.jurisdiction = c0.jurisdiction ∧ pyLower c.topic = t :=
      ⟨c0, hc0m, rfl, hc0t⟩
    have hsetj : ∃ c ∈ clauses, c.jurisdiction = j ∧ pyLower c.topic = t :=
      (hsame c0.jurisdiction j hobs0 hobs t).mp hset0
    apply hjfail
    exact decide_eq_true ((mem_topicset clauses j t).mpr hsetj)
  · intro g hg
    rw [identify_regulatory_gaps_eq] at hg
    rcases List.mem_filterMap.mp hg with ⟨t, ht, hf⟩
    by_cases hlt : (jurisdictionsWithTopic clauses t).length
        < (alistKeys (jurisdiction_topics clauses)).length
    · rw [if_pos hlt] at hf
      obtain ⟨j, hjk, hjfail⟩ := filter_length_lt_exists _ _ hlt
      have hobs := (mem_jurisdiction_topics_keys clauses j).mp hjk
      refine ⟨t, (htop t).mp ht, ⟨j, hobs, ?_⟩, (Option.some.inj hf).symm⟩
      intro hset
      exact hjfail (decide_eq_true ((mem_topicset clauses j t).mpr hset))
    · rw [if_neg hlt] at hf
      exact absurd hf (by simp)

/-- Witness for C7: two jurisdictions sharing the single lower-cased
topic "privacy" produce no gaps. -/
theorem claim_C7_witness :
    identify_regulatory_gaps [fixtureClause "privacy" "EU", fixtureClause "Privacy" "US"]
      = [] :=
  (claim_C7 [fixtureClause "privacy" "EU", fixtureClause "Privacy" "US"]).1 (by
    intro j1 j2 h1 h2 t
    have key : ∀ c ∈ [fixtureClause "privacy" "EU", fixtureClause "Privacy" "US"],
        pyLower c.topic = "privacy" := by decide
    constructor
    · rintro ⟨c, hc, hcj, hct⟩
      obtain ⟨c2, hc2, hcj2⟩ := h2
      refine ⟨c2, hc2, hcj2, ?_⟩
      rw [key c2 hc2, ← key c hc]
      exact hct
    · rintro ⟨c, hc, hcj, hct⟩
      obtain ⟨c1, hc1, hcj1⟩ := h1
      refine ⟨c1, hc1, hcj1, ?_⟩
      rw [key c1 hc1, ← key c hc]
      exact hct)

/-! ### Claim C5 - extraction parse fallback -/

theorem fallback_extraction_fields (response : String) (doc : Document) :
    ∀ cl ∈ fallback_extraction response doc,
      cl.confidence_score = some 0.6 ∧ cl.clause_type = "requirement" ∧
        cl.topic = "general" := by
  unfold fallback_extraction
  generalize pySplitChar response '\n' = lines
  have aux : ∀ (ls : List String) (acc : List ExtractedClause),
      (∀ cl ∈ acc, cl.confidence_score = some 0.6 ∧ cl.clause_type = "requirement" ∧
        cl.topic = "general") →
      ∀ cl ∈ ls.foldl (fun clauses rawLine =>
        let line := pyStrip rawLine
        if decide (("\"clause_text\"").toList.isPrefixOf line.toList) ||
           decide (("clause_text").toList.isPrefixOf line.toList) then
          let l := line.toList
          let text_start := pyFindFrom l '"' ((pyFindFrom l '"' 0) + 1).toNat + 1
          let text_end := pyRfind l '"'
          if 0 < text_start ∧ text_start < text_end then
            let current_clause := (pySlice l text_start.toNat text_end.toNat).asString
            if 10 < current_clause.length then
              clauses ++ [{ clause_text := current_clause
                            clause_type := "requirement"
                            topic := "general"
                            jurisdiction := pyOrStr doc.region "Unknown"
                            document_source := doc.title
                            confidence_score := some 0.6
                            key_entities := none }]
            else clauses
          else clauses
        else clauses) acc,
        cl.confidence_score = some 0.6 ∧ cl.clause_type = "requirement" ∧
          cl.topic = "general" := by
    intro ls
    induction ls with
    | nil => intro acc hacc; exact hacc
    | cons x xs ih =>
        intro acc hacc
        rw [List.foldl_cons]
        apply ih
        intro cl hcl
        dsimp only at hcl
        by_cases h1 : decide (("\"clause_text\"").toList.isPrefixOf (pyStrip x).toList) ||
            decide (("clause_text").toList.isPrefixOf (pyStrip x).toList)
        · rw [if_pos h1] at hcl
          by_cases h2 : 0 < pyFindFrom (pyStrip x).toList '"'
                ((pyFindFrom (pyStrip x).toList '"' 0) + 1).toNat + 1 ∧
              pyFindFrom (pyStrip x).toList '"'
                ((pyFindFrom (pyStrip x).toList '"' 0) + 1).toNat + 1
                < pyRfind (pyStrip x).toList '"'
          · rw [if_pos h2] at hcl
            by_cases h3 : 10 < ((pySlice (pyStrip x).toList
                (pyFindFrom (pyStrip x).toList '"'
                  ((pyFindFrom (pyStrip x).toList '"' 0) + 1).toNat + 1).toNat
                (pyRfind (pyStrip x).toList '"').toNat).asString).length
            · rw [if_pos h3] at hcl
              rcases List.mem_append.mp hcl with hcl' | hcl'
              · exact hacc cl hcl'
              · rw [List.mem_singleton.mp hcl']
                exact ⟨rfl, rfl, rfl⟩
            · rw [if_neg h3] at hcl
              exact hacc cl hcl
          · rw [if_neg h2] at hcl
            exact hacc cl hcl
        · rw [if_neg h1] at hcl
          exact hacc cl hcl
  intro cl hcl
  exact aux lines [] (by simp) cl hcl

theorem parse_extraction_fallback (decode : String → Option (List ExtractItem))
    (response : String) (doc : Document) (js : String)
    (hfind : findJsonArray response = some js) (hdec : decode js = none) :
    parse_extraction_response decode response doc = fallback_extraction response doc := by
  unfold parse_extraction_response
  rw [hfind]
  dsimp only
  rw [hdec]

theorem parse_extraction_nobrackets (decode : String → Option (List ExtractItem))
    (response : String) (doc : Document) (hfind : findJsonArray response = none) :
    parse_extraction_response decode response doc = [] := by
  unfold parse_extraction_response
  rw [hfind]

/-- Counterexample to claim C5 as stated: on a response carrying a
clause-text line but no JSON array delimiters, structured parsing fails
yet the stage does not fall back to the lenient scan - it returns an
empty clause list even though the scan would have extracted a clause. -/
theorem claim_C5_counterexample :
    findJsonArray badExtractResponse = none ∧
    parse_extraction_response okProviders.extractDecode badExtractResponse fixtureDoc
        = [] ∧
    ¬ fallback_extraction badExtractResponse fixtureDoc = [] ∧
    ¬ parse_extraction_response okProviders.extractDecode badExtractResponse fixtureDoc
        = fallback_extraction badExtractResponse fixtureDoc :=
  ⟨by decide, by decide, by decide, by decide⟩

/-- Claim C5 (amended): when a JSON array is found but its decoding
fails, the Extract stage falls back to the lenient text-pattern scan,
whose clauses carry the explicitly lower confidence 0.6 (against the
structured default 0.8); when no array delimiters are present at all,
the stage returns an empty list without consulting the decoder; in
neither case does extraction parsing raise - the Extract node never
records an error, so the pipeline never fails because extraction
parsing failed. -/
theorem claim_C5_amended :
    (∀ (decode : String → Option (List ExtractItem)) (response : String)
        (doc : Document) (js : String),
      findJsonArray response = some js → decode js = none →
      parse_extraction_response decode response doc = fallback_extraction response doc) ∧
    (∀ (response : String) (doc : Document), ∀ cl ∈ fallback_extraction response doc,
      cl.confidence_score = some 0.6 ∧ cl.clause_type = "requirement" ∧
        cl.topic = "general") ∧
    (∀ (decode : String → Option (List ExtractItem)) (response : String)
        (doc : Document),
      findJsonArray response = none →
      parse_extraction_response decode response doc = []) ∧
    (∀ (P : Providers) (s : WorkflowState), (extract_node P s).error = s.error) :=
  ⟨parse_extraction_fallback, fallback_extraction_fields,
   parse_extraction_nobrackets, fun _ _ => rfl⟩

set_option maxRecDepth 4000 in
/-- Witness for the amended C5 at concrete responses. -/
theorem claim_C5_amended_witness :
    parse_extraction_response okProviders.extractDecode badJsonExtractResponse fixtureDoc
        = fallback_extraction badJsonExtractResponse fixtureDoc ∧
    ¬ fallback_extraction badJsonExtractResponse fixtureDoc = [] ∧
    parse_extraction_response okProviders.extractDecode badExtractResponse fixtureDoc
        = [] ∧
    ({ clause_text := ": \"This clause text is long enough"
       clause_type := "requirement"
       topic := "general"
       jurisdiction := "EU"
       document_source := "Doc"
       confidence_score := some 0.6
       key_entities := none } : ExtractedClause).confidence_score = some 0.6 :=
  ⟨claim_C5_amended.1 okProviders.extractDecode badJsonExtractResponse fixtureDoc
      badJsonExtractResponse (by decide) rfl,
   by decide,
   claim_C5_amended.2.2.1 okProviders.extractDecode badExtractResponse fixtureDoc
     (by decide),
   (claim_C5_amended.2.1 badJsonExtractResponse fixtureDoc
     { clause_text := ": \"This clause text is long enough"
       clause_type := "requirement"
       topic := "general"
       jurisdiction := "EU"
       document_source := "Doc"
       confidence_score := some 0.6
       key_entities := none }
     (by
       rw [show fallback_extraction badJsonExtractResponse fixtureDoc
           = [{ clause_text := ": \"This clause text is long enough"
                clause_type := "requirement"
                topic := "general"
                jurisdiction := "EU"
                document_source := "Doc"
                confidence_score := some 0.6
                key_entities := none }] from rfl]
       exact List.mem_singleton.mpr rfl)).1⟩

/-! ### Claim C6 - summarization parse fallback -/

theorem strToList_append (s t : String) : (s ++ t).toList = s.toList ++ t.toList := rfl

set_option maxHeartbeats 2000000 in
set_option maxRecDepth 20000 in
theorem pyStrip_fallback_shape (q nd nc nm : String) :
    (pyStrip ("\nThis research analyzed AI policy documents in response to the query: \"" ++ q
      ++ "\". \nThe analysis covered " ++ nd ++ " documents and extracted " ++ nc
      ++ " legal clauses \nacross " ++ nm
      ++ " comparative topics. The research provides insights into \nregulatory approaches across different jurisdictions and identifies key policy differences.\n")).toList
    = ("This research analyzed AI policy documents in response to the query: \"").toList
      ++ q.toList
      ++ ("\". \nThe analysis covered ").toList ++ nd.toList
      ++ (" documents and extracted ").toList ++ nc.toList
      ++ (" legal clauses \nacross ").toList ++ nm.toList
      ++ (" comparative topics. The research provides insights into \nregulatory approaches across different jurisdictions and identifies key policy differences.").toList := by
  unfold pyStrip
  rw [show ∀ l : List Char, (l.asString).toList = l from fun _ => rfl]
  simp only [strToList_append, List.append_assoc]
  have hA1 : ("\nThis research analyzed AI policy documents in response to the query: \"").toList
      = '\n' :: ("This research analyzed AI policy documents in response to the query: \"").toList := by
    decide
  rw [hA1]
  unfold pyStripList
  rw [List.cons_append, List.dropWhile_cons, if_pos (by decide)]
  have hA1d : List.dropWhile Char.isWhitespace
      ("This research analyzed AI policy documents in response to the query: \"").toList
      = ("This research analyzed AI policy documents in response to the query: \"").toList := by
    decide
  rw [List.dropWhile_append, hA1d, if_neg (by decide)]
  have hA5 : (" comparative topics. The research provides insights into \nregulatory approaches across different jurisdictions and identifies key policy differences.\n").toList
      = (" comparative topics. The research provides insights into \nregulatory approaches across different jurisdictions and identifies key policy differences.").toList ++ ['\n'] := by
    decide
  rw [hA5]
  simp only [List.reverse_append, List.reverse_cons, List.reverse_nil, List.nil_append,
    List.append_assoc, List.cons_append]
  rw [List.dropWhile_cons, if_pos (by decide)]
  have hA5d : List.dropWhile Char.isWhitespace
      ((" comparative topics. The research provides insights into \nregulatory approaches across different jurisdictions and identifies key policy differences.").toList.reverse)
      = (" comparative topics. The research provides insights into \nregulatory approaches across different jurisdictions and identifies key policy differences.").toList.reverse := by
    decide
  rw [List.dropWhile_append, hA5d, if_neg (by decide)]
  simp only [List.reverse_append, List.reverse_reverse, List.append_assoc]

set_option maxHeartbeats 2000000 in
set_option maxRecDepth 20000 in
theorem fallback_summary_contains (query : String) (documents : List Document)
    (clauses : List ExtractedClause) (comparisons : List Comparison) :
    containsSub (create_fallback_summary query documents clauses comparisons).executive_summary
        (toString documents.length ++ " documents") = true ∧
    containsSub (create_fallback_summary query documents clauses comparisons).executive_summary
        (toString clauses.length ++ " legal clauses") = true ∧
    containsSub (create_fallback_summary query documents clauses comparisons).executive_summary
        (toString comparisons.length ++ " comparative topics") = true := by
  have hexec : (create_fallback_summary query documents clauses comparisons).executive_summary
      = pyStrip ("\nThis research analyzed AI policy documents in response to the query: \""
        ++ query ++ "\". \nThe analysis covered " ++ toString documents.length
        ++ " documents and extracted " ++ toString clauses.length
        ++ " legal clauses \nacross " ++ toString comparisons.length
        ++ " comparative topics. The research provides insights into \nregulatory approaches across different jurisdictions and identifies key policy differences.\n") := rfl
  have hshape := pyStrip_fallback_shape query (toString documents.length)
    (toString clauses.length) (toString comparisons.length)
  refine ⟨?_, ?_, ?_⟩
  · rw [hexec, containsSub_iff, hshape, strToList_append]
    have hsplit : (" documents and extracted ").toList
        = (" documents").toList ++ (" and extracted ").toList := by decide
    rw [hsplit]
    refine ⟨("This research analyzed AI policy documents in response to the query: \"").toList
        ++ query.toList ++ ("\". \nThe analysis covered ").toList,
      (" and extracted ").toList ++ (toString clauses.length).toList
        ++ (" legal clauses \nacross ").toList ++ (toString comparisons.length).toList
        ++ (" comparative topics. The research provides insights into \nregulatory approaches across different jurisdictions and identifies key policy differences.").toList,
      ?_⟩
    simp only [List.append_assoc]
  · rw [hexec, containsSub_iff, hshape, strToList_append]
    have hsplit : (" legal clauses \nacross ").toList
        = (" legal clauses").toList ++ (" \nacross ").toList := by decide
    rw [hsplit]
    refine ⟨("This research analyzed AI policy documents in response to the query: \"").toList
        ++ query.toList ++ ("\". \nThe analysis covered ").toList
        ++ (toString documents.length).toList ++ (" documents and extracted ").toList,
      (" \nacross ").toList ++ (toString comparisons.length).toList
        ++ (" comparative topics. The research provides insights into \nregulatory approaches across different jurisdictions and identifies key policy differences.").toList,
      ?_⟩
    simp only [List.append_assoc]
  · rw [hexec, containsSub_iff, hshape, strToList_append]
    have hsplit : (" comparative topics. The research provides insights into \nregulatory approaches across different jurisdictions and identifies key policy differences.").toList
        = (" comparative topics").toList ++ (". The research provides insights into \nregulatory approaches across different jurisdictions and identifies key policy differences.").toList := by
      decide
    rw [hsplit]
    refine ⟨("This research analyzed AI policy documents in response to the query: \"").toList
        ++ query.toList ++ ("\". \nThe analysis covered ").toList
        ++ (toString documents.length).toList ++ (" documents and extracted ").toList
        ++ (toString clauses.length).toList ++ (" legal clauses \nacross ").toList,
      (". The research provides insights into \nregulatory approaches across different jurisdictions and identifies key policy differences.").toList,
      ?_⟩
    simp only [List.append_assoc]

theorem parse_summary_fallback (decode : String → Option SummaryData) (r q : String)
    (docs : List Document) (cls : List ExtractedClause) (comps : List Comparison)
    (h : findJsonObject r = none ∨ ∃ js, findJsonObject r = some js ∧ decode js = none) :
    parse_summary_response decode r q docs cls comps
      = create_fallback_summary q docs cls comps := by
  unfold parse_summary_response
  rcases h with h | ⟨js, hf, hd⟩
  · rw [h]
  · rw [hf]
    dsimp only
    rw [hd]

theorem search_node_error_none (P : Providers) (s0 : WorkflowState)
    (h0 : s0.error = none) (hok : should_continue (search_node P s0) = true) :
    (search_node P s0).error = none := by
  cases hsd : search_documents P.tavily s0.query (some s0.regions)
      (some s0.document_types) with
  | error e =>
      exfalso
      rw [search_node_err P s0 e hsd] at hok
      rw [should_continue_some rfl (append_ne_empty_left _ e (by decide))] at hok
      exact absurd hok (by simp)
  | ok docs =>
      rw [search_node_ok P s0 docs hsd]
      exact h0

/-- Claim C6: in a run that reaches Summarize, when the collaborator's
response cannot be parsed as structured output (no JSON object, or a
decode failure), the stage returns the deterministic fallback Summary,
whose text contains the literal counts of documents, clauses and
comparisons from the context, and the run still ends in `completed`. -/
theorem claim_C6 (P : Providers) (s0 : WorkflowState) (h0 : s0.error = none)
    (hok : should_continue (search_node P s0) = true) (r : String)
    (hcall : P.summarizeOllama
        (compare_node P (extract_node P (search_node P s0))).query
        (compare_node P (extract_node P (search_node P s0))).documents
        (compare_node P (extract_node P (search_node P s0))).clauses
        (compare_node P (extract_node P (search_node P s0))).comparisons
      = Except.ok r)
    (hparse : findJsonObject r = none ∨
      ∃ js, findJsonObject r = some js ∧ P.summaryDecode js = none) :
    (runWorkflow P s0).status = QueryStatus.completed ∧
    (runWorkflow P s0).summary = some (create_fallback_summary
        (compare_node P (extract_node P (search_node P s0))).query
        (compare_node P (extract_node P (search_node P s0))).documents
        (compare_node P (extract_node P (search_node P s0))).clauses
        (compare_node P (extract_node P (search_node P s0))).comparisons) ∧
    containsSub (create_fallback_summary
        (compare_node P (extract_node P (search_node P s0))).query
        (compare_node P (extract_node P (search_node P s0))).documents
        (compare_node P (extract_node P (search_node P s0))).clauses
        (compare_node P (extract_node P (search_node P s0))).comparisons).executive_summary
      (toString (compare_node P (extract_node P (search_node P s0))).documents.length
        ++ " documents") = true ∧
    containsSub (create_fallback_summary
        (compare_node P (extract_node P (search_node P s0))).query
        (compare_node P (extract_node P (search_node P s0))).documents
        (compare_node P (extract_node P (search_node P s0))).clauses
        (compare_node P (extract_node P (search_node P s0))).comparisons).executive_summary
      (toString (compare_node P (extract_node P (search_node P s0))).clauses.length
        ++ " legal clauses") = true ∧
    containsSub (create_fallback_summary
        (compare_node P (extract_node P (search_node P s0))).query
        (compare_node P (extract_node P (search_node P s0))).documents
        (compare_node P (extract_node P (search_node P s0))).clauses
        (compare_node P (extract_node P (search_node P s0))).comparisons).executive_summary
      (toString (compare_node P (extract_node P (search_node P s0))).comparisons.length
        ++ " comparative topics") = true := by
  have h2 : should_continue (extract_node P (search_node P s0)) = true := hok
  have h3 : should_continue (compare_node P (extract_node P (search_node P s0))) = true := hok
  have hs3err : (compare_node P (extract_node P (search_node P s0))).error = none :=
    search_node_error_none P s0 h0 hok
  have hgen : generate_summary P.summarizeOllama P.summaryDecode
      (compare_node P (extract_node P (search_node P s0))).query
      (compare_node P (extract_node P (search_node P s0))).documents
      (compare_node P (extract_node P (search_node P s0))).clauses
      (compare_node P (extract_node P (search_node P s0))).comparisons
      = Except.ok (create_fallback_summary
          (compare_node P (extract_node P (search_node P s0))).query
          (compare_node P (extract_node P (search_node P s0))).documents
          (compare_node P (extract_node P (search_node P s0))).clauses
          (compare_node P (extract_node P (search_node P s0))).comparisons) := by
    unfold generate_summary
    rw [hcall]
    dsimp only
    rw [parse_summary_fallback P.summaryDecode r _ _ _ _ hparse]
  have hs4 := summarize_node_ok P (compare_node P (extract_node P (search_node P s0)))
    _ hgen
  have hsc4 : should_continue
      (summarize_node P (compare_node P (extract_node P (search_node P s0)))) = true := by
    rw [hs4]
    exact should_continue_none hs3err
  have hrun : runWorkflow P s0
      = finalize_node (summarize_node P (compare_node P (extract_node P (search_node P s0)))) := by
    unfold runWorkflow
    dsimp only
    rw [hok, h2, h3, hsc4]
    simp
  refine ⟨?_, ?_, fallback_summary_contains _ _ _ _ |>.1,
    fallback_summary_contains _ _ _ _ |>.2.1, fallback_summary_contains _ _ _ _ |>.2.2⟩
  · rw [hrun]
    rfl
  · rw [hrun]
    show (summarize_node P (compare_node P (extract_node P (search_node P s0)))).summary = _
    rw [hs4]

set_option maxRecDepth 8000 in
/-- Witness for C6: the all-ok providers return the unparseable response
"garbage" during Summarize; the concrete run completes with the
fallback summary. -/
theorem claim_C6_witness :
    (runWorkflow okProviders (initial_state fixtureQuery)).status
        = QueryStatus.completed ∧
    (runWorkflow okProviders (initial_state fixtureQuery)).summary
      = some (create_fallback_summary
          (compare_node okProviders (extract_node okProviders
            (search_node okProviders (initial_state fixtureQuery)))).query
          (compare_node okProviders (extract_node okProviders
            (search_node okProviders (initial_state fixtureQuery)))).documents
          (compare_node okProviders (extract_node okProviders
            (search_node okProviders (initial_state fixtureQuery)))).clauses
          (compare_node okProviders (extract_node okProviders
            (search_node okProviders (initial_state fixtureQuery)))).comparisons) :=
  ⟨(claim_C6 okProviders (initial_state fixtureQuery) rfl (by decide) "garbage" rfl
      (Or.inl (by decide))).1,
   (claim_C6 okProviders (initial_state fixtureQuery) rfl (by decide) "garbage" rfl
      (Or.inl (by decide))).2.1⟩
